import Mathlib

/-!
Verification of the BuildUtils toolchain bootstrap orchestrator.

This file shallowly embeds the Python sources `toolchain_builder.py`,
`package_manager.py` and `toolchain_dependencies.py`.  External behaviour
(process invocations, filesystem reads and writes, downloads) is modelled as
a trace of `Effect` values produced by a state monad `M` over an abstract
filesystem `FS` and package-manager state `PMState`.  Outcomes of external
processes (exit codes, captured output) and the ambient host (operating
system name, environment, CPU count) are supplied by a read-only oracle
`World`.  Python functions raising exceptions are modelled with
`Except String`.  Paths are plain strings; `os.path.join a b` is modelled as
`a ++ "/" ++ b` (all joins in the source use relative second components).
Environment dictionaries passed to subprocesses are modelled at value level
by `compose_build_env` and are not attached to individual `run` effects.
-/

/-- Character-list substring membership, models the Python `in` operator on
strings (used for the "mingw" platform test and the apt output test). -/
def listContainsSub (l pat : List Char) : Bool :=
  match l with
  | [] => pat == []
  | c :: rest => List.isPrefixOf pat (c :: rest) || listContainsSub rest pat

/-- String substring test: `strContains s pat` models Python `pat in s`. -/
def strContains (s pat : String) : Bool :=
  listContainsSub s.data pat.data

/-- Boolean test that `pre` is a literal prefix of `s` (used by the stage
classifier below, not by the embedded program itself). -/
def startsWithLit (pre s : String) : Bool :=
  List.isPrefixOf pre.data s.data

/-- Fuel-driven single-pattern substitution on character lists; models
Python `str.format` for the one placeholder used by the source. -/
def substChars : Nat → List Char → List Char → List Char → List Char
  | 0, _, _, _ => []
  | _ + 1, [], _, _ => []
  | n + 1, c :: rest, pat, rep =>
    if List.isPrefixOf pat (c :: rest) then
      rep ++ substChars n ((c :: rest).drop pat.length) pat rep
    else
      c :: substChars n rest pat rep

/-- Models `template.format(platform=plat)`: replaces every occurrence of
the literal `"{platform}"` in `tpl` by `plat`. -/
def formatTemplate (tpl plat : String) : String :=
  ⟨substChars (tpl.data.length + 1) tpl.data "{platform}".data plat.data⟩

/-- Models `os.path.join` for the relative second components used by the
source. -/
def joinPath (a b : String) : String := a ++ "/" ++ b

/-- Models `" ".join(l)`. -/
def joinSpace : List String → String
  | [] => ""
  | [x] => x
  | x :: y :: rest => x ++ " " ++ joinSpace (y :: rest)

/-- Whitespace predicate for `strStrip`. -/
def isWS (c : Char) : Bool :=
  c == ' ' || c == '\n' || c == '\t' || c == '\r'

/-- Models Python `str.strip()`. -/
def strStrip (s : String) : String :=
  ⟨((s.data.dropWhile isWS).reverse.dropWhile isWS).reverse⟩

/-- One observable action of the program: an existence check, an external
process invocation, a download, or a filesystem mutation.  `message` records
`print` output. -/
inductive Effect where
  | isFileCheck (path : String)
  | existsCheck (path : String)
  | shell (cmd : String)
  | run (cmd : List String) (cwd : Option String)
  | download (url : String) (file : String)
  | makedirs (path : String)
  | mkdir (path : String)
  | removeFile (path : String)
  | rmtree (path : String)
  | message (msg : String)
  deriving DecidableEq, Repr

/-- Abstract filesystem: which paths exist as files and as directories. -/
structure FS where
  files : String → Bool
  dirs : String → Bool

/-- Models `os.path.exists`. -/
def FS.pexists (fs : FS) (p : String) : Bool := fs.files p || fs.dirs p

/-- Records a directory as present (`os.mkdir` / `os.makedirs` / the
directory created by `git clone`). -/
def FS.addDir (fs : FS) (p : String) : FS :=
  { fs with dirs := fun q => if q = p then true else fs.dirs q }

/-- Records a file as present (result of `urllib.request.urlretrieve`). -/
def FS.addFile (fs : FS) (p : String) : FS :=
  { fs with files := fun q => if q = p then true else fs.files q }

/-- Models `os.remove` (under `contextlib.suppress(FileNotFoundError)`). -/
def FS.rmFile (fs : FS) (p : String) : FS :=
  { fs with files := fun q => if q = p then false else fs.files q }

/-- Models `shutil.rmtree` on the tracked path itself: the path stops
existing (as a directory; the file map is cleared at the path as well so
that removal always yields non-existence of the path). -/
def FS.rmtreeP (fs : FS) (p : String) : FS :=
  { files := fun q => if q = p then false else fs.files q,
    dirs := fun q => if q = p then false else fs.dirs q }

/-- Which package manager class is cached / selected.  Mirrors the three
concrete subclasses of `PackageManager`. -/
inductive PMKind where
  | apt
  | pacman
  | brew
  deriving DecidableEq, Repr

/-- Mutable class-level state of `package_manager.py`: the process-wide
detection cache `PackageManager.cached` and the flag `Apt.did_update`. -/
structure PMState where
  cached : Option PMKind
  aptDidUpdate : Bool
  deriving Repr

/-- Whole mutable state threaded by the embedding. -/
structure S where
  fs : FS
  pm : PMState

/-- Result of running an embedded computation: the effect trace, the final
state, and the value or the uncaught Python exception. -/
structure Out (α : Type) where
  trace : List Effect
  state : S
  result : Except String α

/-- The embedding monad: state plus effect trace plus exceptions. -/
def M (α : Type) : Type := S → Out α

def M.mpure {α : Type} (a : α) : M α := fun s => ⟨[], s, .ok a⟩

def M.mbind {α β : Type} (x : M α) (f : α → M β) : M β := fun s =>
  let o := x s
  match o.result with
  | .ok a =>
    let o2 := f a o.state
    ⟨o.trace ++ o2.trace, o2.state, o2.result⟩
  | .error e => ⟨o.trace, o.state, .error e⟩

instance instMonadM : Monad M where
  pure := M.mpure
  bind := M.mbind

/-- Read-only oracle for everything outside the program: the host system
name, ambient environment, CPU count, and outcomes of external commands. -/
structure World where
  system : String
  environ : String → Option String
  cpuCount : Nat
  exitCode : List String → Nat
  shellCode : String → Nat
  aptListOut : String → String
  brewPrefixOut : String → String

def throwE {α : Type} (msg : String) : M α := fun s => ⟨[], s, .error msg⟩

def printM (m : String) : M Unit := fun s => ⟨[.message m], s, .ok ()⟩

/-- Models `os.path.isfile`. -/
def isFileM (p : String) : M Bool := fun s => ⟨[.isFileCheck p], s, .ok (s.fs.files p)⟩

/-- Models `os.path.exists`. -/
def pexistsM (p : String) : M Bool := fun s => ⟨[.existsCheck p], s, .ok (s.fs.pexists p)⟩

/-- Models `subprocess.run(cmd, check=True)` / `subprocess.check_output`:
raises `CalledProcessError` when the oracle reports a non-zero exit. -/
def runChecked (w : World) (cmd : List String) (cwd : Option String) : M Unit := fun s =>
  if w.exitCode cmd = 0 then ⟨[.run cmd cwd], s, .ok ()⟩
  else ⟨[.run cmd cwd], s, .error "CalledProcessError"⟩

/-- Models `subprocess.run(cmd)` without `check`: returns the exit code. -/
def runUnchecked (w : World) (cmd : List String) (cwd : Option String) : M Nat := fun s =>
  ⟨[.run cmd cwd], s, .ok (w.exitCode cmd)⟩

/-- Models `subprocess.check_output(cmd)`, with the captured output supplied
by the caller from the oracle. -/
def checkOutputM (w : World) (cmd : List String) (out : String) : M String := fun s =>
  if w.exitCode cmd = 0 then ⟨[.run cmd none], s, .ok out⟩
  else ⟨[.run cmd none], s, .error "CalledProcessError"⟩

/-- Models `subprocess.run(shellString, shell=True)`: returns the exit code. -/
def shellRun (w : World) (c : String) : M Nat := fun s =>
  ⟨[.shell c], s, .ok (w.shellCode c)⟩

/-- Models `urllib.request.urlretrieve` (assumed to succeed). -/
def downloadM (url file : String) : M Unit := fun s =>
  ⟨[.download url file], { s with fs := s.fs.addFile file }, .ok ()⟩

/-- Models `os.makedirs(p, exist_ok=True)`. -/
def makedirsM (p : String) : M Unit := fun s =>
  ⟨[.makedirs p], { s with fs := s.fs.addDir p }, .ok ()⟩

/-- Models `os.mkdir(p)` (only reached when `p` does not exist). -/
def mkdirM (p : String) : M Unit := fun s =>
  ⟨[.mkdir p], { s with fs := s.fs.addDir p }, .ok ()⟩

/-- Models `os.remove(p)` inside `contextlib.suppress(FileNotFoundError)`. -/
def removeFileM (p : String) : M Unit := fun s =>
  ⟨[.removeFile p], { s with fs := s.fs.rmFile p }, .ok ()⟩

/-- Models `shutil.rmtree(p)`. -/
def rmtreeM (p : String) : M Unit := fun s =>
  ⟨[.rmtree p], { s with fs := s.fs.rmtreeP p }, .ok ()⟩

def getPMStateM : M PMState := fun s => ⟨[], s, .ok s.pm⟩

def setCachedM (c : Option PMKind) : M Unit := fun s =>
  ⟨[], { s with pm := { s.pm with cached := c } }, .ok ()⟩

def setAptDidUpdateM (b : Bool) : M Unit := fun s =>
  ⟨[], { s with pm := { s.pm with aptDidUpdate := b } }, .ok ()⟩

/-! ## package_manager.py -/

/-- Models `_command_exists`: shells `command -v cmd` and tests the exit
code. -/
def command_exists (w : World) (cmd : String) : M Bool := do
  let code ← shellRun w ("command -v " ++ cmd)
  pure (code == 0)

def Apt.detect (w : World) : M Bool := command_exists w "apt"

/-- Models `Apt.is_dep_installed`: `apt --installed list dep -qq`, then a
substring test `"[installed" in out`. -/
def Apt.is_dep_installed (w : World) (dep : String) : M Bool := do
  let out ← checkOutputM w ["apt", "--installed", "list", dep, "-qq"] (w.aptListOut dep)
  pure (strContains out "[installed")

/-- Models `Apt.install_dep`: a one-time unchecked `apt-get update` guarded
by the class flag `did_update`, then a checked `apt-get install`. -/
def Apt.install_dep (w : World) (dep : String) : M Unit := do
  let st ← getPMStateM
  if !st.aptDidUpdate then do
    let _ ← runUnchecked w ["sudo", "apt-get", "update"] none
    setAptDidUpdateM true
  runChecked w ["sudo", "apt-get", "install", "-y", dep] none

def Pacman.detect (w : World) : M Bool := command_exists w "pacman"

/-- Models `Pacman.is_dep_installed`: exit code of `pacman -Qs dep`. -/
def Pacman.is_dep_installed (w : World) (dep : String) : M Bool := do
  let code ← runUnchecked w ["pacman", "-Qs", dep] none
  pure (code == 0)

def Pacman.install_dep (w : World) (dep : String) : M Unit :=
  runChecked w ["sudo", "pacman", "-Sy", dep, "--noconfirm"] none

def Brew.detect (w : World) : M Bool := command_exists w "brew"

/-- Models `Brew.is_dep_installed`: exit code of `brew list dep`. -/
def Brew.is_dep_installed (w : World) (dep : String) : M Bool := do
  let code ← runUnchecked w ["brew", "list", dep] none
  pure (code == 0)

def Brew.install_dep (w : World) (dep : String) : M Unit :=
  runChecked w ["brew", "install", dep] none

/-- Models `Brew.prefix`: `brew --prefix dep` captured and stripped. -/
def Brew.pfxOf (w : World) (dep : String) : M String := do
  let out ← checkOutputM w ["brew", "--prefix", dep] (w.brewPrefixOut dep)
  pure (strStrip out)

def pmName : PMKind → String
  | .apt => "apt"
  | .pacman => "pacman"
  | .brew => "brew"

def pmDetect (w : World) : PMKind → M Bool
  | .apt => Apt.detect w
  | .pacman => Pacman.detect w
  | .brew => Brew.detect w

def pm_is_dep_installed (w : World) : PMKind → String → M Bool
  | .apt => Apt.is_dep_installed w
  | .pacman => Pacman.is_dep_installed w
  | .brew => Brew.is_dep_installed w

def pm_install_dep (w : World) : PMKind → String → M Unit
  | .apt => Apt.install_dep w
  | .pacman => Pacman.install_dep w
  | .brew => Brew.install_dep w

/-- The tuple `PACKAGE_MANAGERS`, in source order. -/
def PACKAGE_MANAGERS : List PMKind := [.apt, .pacman, .brew]

/-- The probing loop of `get_package_manager`: first variant whose
`detect()` returns true wins; it is printed and cached. -/
def detectLoop (w : World) : List PMKind → M (Option PMKind)
  | [] => pure none
  | pm :: rest => do
    let d ← pmDetect w pm
    if d then do
      printM ("Detected package manager " ++ pmName pm)
      setCachedM (some pm)
      pure (some pm)
    else detectLoop w rest

/-- Models `get_package_manager`: returns the cached selection if present;
on Darwin selects Brew without probing; otherwise probes `PACKAGE_MANAGERS`
in order and raises if none matches. -/
def get_package_manager (w : World) : M PMKind := do
  let st ← getPMStateM
  match st.cached with
  | some pm => pure pm
  | none =>
    if w.system == "Darwin" then do
      setCachedM (some .brew)
      pure .brew
    else do
      let r ← detectLoop w PACKAGE_MANAGERS
      match r with
      | some pm => pure pm
      | none => throwE "Couldn\x27t detect a supported package manager"

/-- The per-package loop of `install_dependencies`. -/
def installLoop (w : World) (pm : PMKind) : List String → M Unit
  | [] => pure ()
  | dep :: rest => do
    let inst ← pm_is_dep_installed w pm dep
    if inst then printM (dep ++ " is already installed")
    else do
      printM ("Installing " ++ dep ++ "...")
      pm_install_dep w pm dep
    installLoop w pm rest

/-- Models `install_dependencies(deps)`: detect the package manager, index
the deps dict by its name (`KeyError` when absent), then install each
missing package in list order. -/
def install_dependencies (w : World) (deps : List (String × List String)) : M Unit := do
  let pm ← get_package_manager w
  match deps.lookup (pmName pm) with
  | none => throwE "KeyError: package manager name"
  | some pm_deps => installLoop w pm pm_deps

/-! ## toolchain_dependencies.py -/

/-- The static table `PACKAGE_MANAGER_TO_DEPS`. -/
def PACKAGE_MANAGER_TO_DEPS : List (String × List (String × List String)) :=
  [("gcc",
    [("apt", ["build-essential", "bison", "flex", "libgmp-dev", "libmpc-dev",
              "libmpfr-dev", "texinfo", "libisl-dev"]),
     ("pacman", ["base-devel", "gmp", "libmpc", "mpfr"]),
     ("brew", ["coreutils", "bison", "flex", "gmp", "libmpc", "mpfr",
               "texinfo", "isl"])]),
   ("clang",
    [("apt", ["clang", "lld"]),
     ("pacman", ["clang", "lld"]),
     ("brew", ["llvm"])])]

/-- Models `get_dependencies_for_toolchain` (`KeyError` modelled as `none`). -/
def get_dependencies_for_toolchain (ty : String) : Option (List (String × List String)) :=
  PACKAGE_MANAGER_TO_DEPS.lookup ty

/-! ## toolchain_builder.py -/

/-- The value object `ToolchainParams`. -/
structure ToolchainParams where
  type : String
  target_arch : String
  target_platform : String
  root_dir : String
  tune_for_native : Bool
  skip_dependencies : Bool
  sources_dir : String
  keep_sources : Bool
  keep_build : Bool

/-- Models calling `ToolchainParams(...)`: the `__init__` of the source only
assigns attributes and performs no validation, so construction never
raises. -/
def ToolchainParams.construct (ty arch plat root : String) (tune skip : Bool)
    (srcs : String) (ks kb : Bool) : Except String ToolchainParams :=
  .ok ⟨ty, arch, plat, root, tune, skip, srcs, ks, kb⟩

def GCC_VERSION : String := "11.2.0"

def BINUTILS_VERSION : String := "2.37"

/-- Models `_apply_patch`: `patch -p0` run in `target_dir` with the patch
text on stdin. -/
def apply_patch (w : World) (target_dir : String) : M Unit :=
  runChecked w ["patch", "-p0"] (some target_dir)

/-- Models `_ensure_dependencies`. -/
def ensure_dependencies (w : World) (params : ToolchainParams) : M Unit := do
  if params.skip_dependencies then pure ()
  else
    match get_dependencies_for_toolchain params.type with
    | none => throwE "KeyError: toolchain type"
    | some deps => install_dependencies w deps

/-- Models `_clone_mingw_w64`: skip when the target path exists, otherwise
`git clone` (whose success creates the directory). -/
def clone_mingw_w64 (w : World) (target_dir : String) : M Unit := do
  let ex ← pexistsM target_dir
  if ex then printM "mingw-w64 already cloned, skipping"
  else do
    printM "Downloading mingw-w64..."
    runChecked w ["git", "clone", "https://github.com/mingw-w64/mingw-w64", target_dir] none
    fun s => ⟨[], { s with fs := s.fs.addDir target_dir }, .ok ()⟩

/-- Models `_install_mingw_headers`. -/
def install_mingw_headers (w : World) (source_dir platform_dir target_dir : String) : M Unit := do
  let mingw_headers_dir := joinPath target_dir "mingw_headers"
  makedirsM mingw_headers_dir
  let configure_path := joinPath (joinPath source_dir "mingw-w64-headers") "configure"
  printM "Installing mingw headers..."
  runChecked w [configure_path, "--prefix=" ++ platform_dir] (some mingw_headers_dir)
  runChecked w ["make", "install"] (some mingw_headers_dir)
  rmtreeM mingw_headers_dir

/-- The `-j{os.cpu_count()}` argument. -/
def cpuJobs (w : World) : String := "-j" ++ toString w.cpuCount

/-- Models `_install_mingw_libs`. -/
def install_mingw_libs (w : World) (source_dir target platform_dir target_dir : String) : M Unit := do
  let mingw_crt_dir := joinPath target_dir "mingw_crt"
  makedirsM mingw_crt_dir
  let configure_path := joinPath (joinPath source_dir "mingw-w64-crt") "configure"
  printM "Compiling mingw crt..."
  runChecked w [configure_path, "--prefix=" ++ platform_dir, "--host=" ++ target,
                "--with-sysroot=" ++ platform_dir, "--enable-lib64", "--disable-lib32"]
    (some mingw_crt_dir)
  runChecked w ["make", cpuJobs w] (some mingw_crt_dir)
  runChecked w ["make", "install"] (some mingw_crt_dir)
  rmtreeM mingw_crt_dir

/-- Models `_build_binutils`.  The argument `"--with-sysroot--disable-nls"`
is one string: the Python source juxtaposes the two literals with no comma,
so they are concatenated. -/
def build_binutils (w : World) (binutils_sources binutils_target_dir target platform_root : String) :
    M Unit := do
  let configure_full_path := joinPath binutils_sources "configure"
  printM "Building binutils..."
  runChecked w [configure_full_path, "--target=" ++ target, "--prefix=" ++ platform_root,
                "--with-sysroot--disable-nls", "--disable-multilib", "--disable-werror"]
    (some binutils_target_dir)
  runChecked w ["make", cpuJobs w] (some binutils_target_dir)
  runChecked w ["make", "install"] (some binutils_target_dir)

/-- Models `_is_gcc_toolchain_built`: both `<root>/bin/<p>-gcc` and
`<root>/bin/<p>-ld` must be regular files (Python `and` short-circuits). -/
def is_gcc_toolchain_built (tc_root pfxStr : String) : M Bool := do
  let full_path := joinPath (joinPath tc_root "bin") (pfxStr ++ "-")
  let g ← isFileM (full_path ++ "gcc")
  if g then isFileM (full_path ++ "ld") else pure false

/-- The dict `arch_to_prefix` of `_get_gcc_prefix`. -/
def arch_to_pfx : List (String × String) :=
  [("x86_64", "x86_64-{platform}"), ("i686", "i686-{platform}")]

/-- Models `_get_gcc_prefix`: dict lookup (a `KeyError`, modelled as `none`,
when the architecture is not a key) followed by `.format(platform=...)`. -/
def gcc_prefix_of (params : ToolchainParams) : Option String :=
  (arch_to_pfx.lookup params.target_arch).map
    (fun tpl => formatTemplate tpl params.target_platform)

/-- Models `_download_and_extract`: skip everything when the target
directory exists; otherwise download the tarball unless present, make the
directory and untar into it with `--strip-components 1` (plus a checkpoint
option off Darwin).  Returns whether an extraction happened. -/
def download_and_extract (w : World) (url target_file target_dir plat : String) : M Bool := do
  let ex ← pexistsM target_dir
  if ex then do
    printM (target_dir ++ " already exists")
    pure false
  else do
    let fex ← pexistsM target_file
    if !fex then do
      printM ("Downloading " ++ url ++ "...")
      downloadM url target_file
    else printM (target_file ++ " already exists, not downloading")
    mkdirM target_dir
    let command := ["tar", "-xf", target_file, "-C", target_dir, "--strip-components", "1"]
    let command := if plat != "Darwin" then command ++ ["--checkpoint=.250"] else command
    printM ("Unpacking " ++ target_file ++ "...")
    runChecked w command none
    printM ""
    pure true

/-- Models `_download_gcc_toolchain_sources`: fetch and extract the pinned
GCC and binutils tarballs, deleting each tarball afterwards (missing file
suppressed), and patch freshly extracted GCC sources on Darwin. -/
def download_gcc_toolchain_sources (w : World)
    (plat workdir gcc_target_dir binutils_target_dir : String) : M Unit := do
  let gcc_url := "ftp://ftp.gnu.org/gnu/gcc/gcc-" ++ GCC_VERSION ++ "/gcc-" ++ GCC_VERSION ++ ".tar.gz"
  let binutils_url := "https://ftp.gnu.org/gnu/binutils/binutils-" ++ BINUTILS_VERSION ++ ".tar.gz"
  let full_gcc_tarball_path := joinPath workdir "gcc.tar.gz"
  let full_binutils_tarball_path := joinPath workdir "binutils.tar.gz"
  let is_new ← download_and_extract w gcc_url full_gcc_tarball_path gcc_target_dir plat
  removeFileM full_gcc_tarball_path
  if is_new && (plat == "Darwin") then apply_patch w gcc_target_dir
  let _ ← download_and_extract w binutils_url full_binutils_tarball_path binutils_target_dir plat
  removeFileM full_binutils_tarball_path

/-- Models `_build_gcc`: configure (with Brew library locations added on a
Darwin host), `make all-gcc`, `make install-gcc`. -/
def build_gcc (w : World)
    (gcc_sources gcc_target_dir this_platform target_platform platform_root : String) : M Unit := do
  let configure_full_path := joinPath gcc_sources "configure"
  let base := [configure_full_path, "--target=" ++ target_platform,
               "--prefix=" ++ platform_root, "--disable-nls",
               "--enable-languages=c,c++", "--disable-multilib"]
  let configure_command ←
    if this_platform == "Darwin" then do
      let g ← Brew.pfxOf w "gmp"
      let c ← Brew.pfxOf w "libmpc"
      let m ← Brew.pfxOf w "mpfr"
      pure (base ++ ["--with-gmp=" ++ g, "--with-mpc=" ++ c, "--with-mpfr=" ++ m])
    else pure base
  printM "Building GCC..."
  runChecked w configure_command (some gcc_target_dir)
  runChecked w ["make", "all-gcc", cpuJobs w] (some gcc_target_dir)
  runChecked w ["make", "install-gcc"] (some gcc_target_dir)

/-- Models `_build_libgcc`. -/
def build_libgcc (w : World) (gcc_dir : String) : M Unit := do
  runChecked w ["make", "all-target-libgcc", cpuJobs w] (some gcc_dir)
  runChecked w ["make", "install-target-libgcc"] (some gcc_dir)

/-- The `cflags` list of `_build_gcc_toolchain` lines 251-258: base flags
plus the host-specific native-tuning flag when requested. -/
def base_cflags (tune : Bool) (this_platform : String) : List String :=
  let cflags := ["-g", "-O2"]
  if tune then
    if this_platform == "Darwin" then cflags ++ ["-mtune=native"]
    else cflags ++ ["-march=native"]
  else cflags

/-- Env-dictionary update (Python `env[k] = v`). -/
def envSet (e : String → Option String) (k v : String) : String → Option String :=
  fun q => if q = k then some v else e q

/-- Env-dictionary read with default (Python `env.get(k, d)`). -/
def envGetD (e : String → Option String) (k d : String) : String :=
  (e k).getD d

/-- Models the environment composition of `_build_gcc_toolchain` lines
249-264: copy the ambient environment, append the joined flag string to
`CFLAGS` and `CXXFLAGS` (plain `+`, no separator), and prepend
`<root>/bin:` to `PATH`. -/
def compose_build_env (ambient : String → Option String) (params : ToolchainParams)
    (this_platform : String) : String → Option String :=
  let cflags := base_cflags params.tune_for_native this_platform
  let env := envSet ambient "CFLAGS" (envGetD ambient "CFLAGS" "" ++ joinSpace cflags)
  let env := envSet env "CXXFLAGS" (envGetD env "CXXFLAGS" "" ++ joinSpace cflags)
  let bin_dir := joinPath params.root_dir "bin"
  envSet env "PATH" (bin_dir ++ ":" ++ envGetD env "PATH" "")

/-- Models `_build_gcc_toolchain`: optional MinGW clone and sysroot setup,
environment composition, then binutils, optional MinGW headers, GCC
stage 1, optional MinGW runtime, libgcc, and flag-driven cleanup of the
MinGW clone and the two build directories. -/
def build_gcc_toolchain (w : World) (params : ToolchainParams)
    (gcc_sources binutils_sources this_platform : String) : M Unit := do
  match gcc_prefix_of params with
  | none => throwE "KeyError: target_arch"
  | some compilerPfx => do
    let binutils_build_dir := joinPath params.root_dir ("binutils-" ++ params.target_arch ++ "-build")
    let gcc_build_dir := joinPath params.root_dir ("gcc-" ++ params.target_arch ++ "-build")
    let is_mingw := strContains params.target_platform "mingw"
    let mingw_w64_dir := joinPath params.root_dir "mingw-w64"
    let mingw_target_dir := joinPath params.root_dir compilerPfx
    if is_mingw then do
      makedirsM mingw_target_dir
      clone_mingw_w64 w mingw_w64_dir
    let _env := compose_build_env w.environ params this_platform
    printM ("Building the GCC toolchain for " ++ params.target_arch ++ " (" ++ compilerPfx ++ ")...")
    makedirsM binutils_build_dir
    build_binutils w binutils_sources binutils_build_dir compilerPfx params.root_dir
    if is_mingw then
      install_mingw_headers w mingw_w64_dir mingw_target_dir params.root_dir
    makedirsM gcc_build_dir
    build_gcc w gcc_sources gcc_build_dir this_platform compilerPfx params.root_dir
    if is_mingw then
      install_mingw_libs w mingw_w64_dir compilerPfx mingw_target_dir params.root_dir
    build_libgcc w gcc_build_dir
    printM ("Toolchain for " ++ params.target_arch ++ " built succesfully!")
    if !params.keep_sources && is_mingw then rmtreeM mingw_w64_dir
    if !params.keep_build then do
      printM "Removing build directories..."
      rmtreeM binutils_build_dir
      rmtreeM gcc_build_dir

/-- Models `_ensure_gcc_toolchain`: derive the prefix (KeyError for unknown
architectures), short-circuit when the completion marker exists, otherwise
install dependencies, fetch sources, build, and remove source trees unless
kept. -/
def ensure_gcc_toolchain (w : World) (params : ToolchainParams) : M Unit := do
  match gcc_prefix_of params with
  | none => throwE "KeyError: target_arch"
  | some pfxStr => do
    let built ← is_gcc_toolchain_built params.root_dir pfxStr
    if built then printM ("Toolchain for " ++ params.target_arch ++ " is already built")
    else do
      makedirsM params.root_dir
      ensure_dependencies w params
      let gcc_dir_full_path := joinPath params.sources_dir "gcc_sources"
      let binutils_dir_full_path := joinPath params.sources_dir "binutils_sources"
      download_gcc_toolchain_sources w w.system params.sources_dir
        gcc_dir_full_path binutils_dir_full_path
      makedirsM params.root_dir
      build_gcc_toolchain w params gcc_dir_full_path binutils_dir_full_path w.system
      if !params.keep_sources then do
        printM "Removing source directories..."
        rmtreeM gcc_dir_full_path
        rmtreeM binutils_dir_full_path
      printM "Successfully built GCC toolchain!"

/-- Models `_ensure_clang_toolchain`. -/
def ensure_clang_toolchain (w : World) (params : ToolchainParams) : M Unit :=
  ensure_dependencies w params

/-- Models `build_toolchain`. -/
def build_toolchain (w : World) (params : ToolchainParams) : M Unit :=
  if params.type == "gcc" then ensure_gcc_toolchain w params
  else ensure_clang_toolchain w params

/-- A process-lifetime sequence of `Apt.install_dep` calls, one per
package, as performed by dependency installation within one process. -/
def aptInstallSeq (w : World) : List String → M Unit
  | [] => pure ()
  | d :: ds => do
    Apt.install_dep w d
    aptInstallSeq w ds

/-- The tar invocation assembled by `_download_and_extract`. -/
def tarCmd (f d plat : String) : List String :=
  if plat != "Darwin" then
    ["tar", "-xf", f, "-C", d, "--strip-components", "1", "--checkpoint=.250"]
  else
    ["tar", "-xf", f, "-C", d, "--strip-components", "1"]

/-- The net filesystem transformation of a successful `_build_gcc_toolchain`
run, written as a pure function on the abstract filesystem (used to
characterize the monadic pipeline). -/
def buildFS (params : ToolchainParams) (pfxStr : String) (fs0 : FS) : FS :=
  let mdir := joinPath params.root_dir "mingw-w64"
  let mt := joinPath params.root_dir pfxStr
  let mh := joinPath params.root_dir "mingw_headers"
  let mc := joinPath params.root_dir "mingw_crt"
  let bb := joinPath params.root_dir ("binutils-" ++ params.target_arch ++ "-build")
  let gb := joinPath params.root_dir ("gcc-" ++ params.target_arch ++ "-build")
  let is_mingw := strContains params.target_platform "mingw"
  let fs1 := if is_mingw then fs0.addDir mt else fs0
  let fs2 := if is_mingw then (if fs1.pexists mdir then fs1 else fs1.addDir mdir) else fs1
  let fs3 := fs2.addDir bb
  let fs4 := if is_mingw then (fs3.addDir mh).rmtreeP mh else fs3
  let fs5 := fs4.addDir gb
  let fs6 := if is_mingw then (fs5.addDir mc).rmtreeP mc else fs5
  let fs7 := if !params.keep_sources && is_mingw then fs6.rmtreeP mdir else fs6
  if !params.keep_build then (fs7.rmtreeP bb).rmtreeP gb else fs7

/-! ## Stage abstraction for the pipeline ordering claim -/

/-- The named build stages of spec section 4.4. -/
inductive Stage where
  | binutils
  | mingwHeaders
  | gccStage1
  | mingwRuntime
  | libgcc
  deriving DecidableEq, Repr

/-- Classifies a command line as the start of a build stage: each stage is
recognised by a constant argument unique to its configure or make
invocation (the MinGW headers configure, which has no distinctive constant
flag, is the only two-argument command whose second argument is a
`--prefix=` option). -/
def stageOfCmd (cmd : List String) : Option Stage :=
  if "--with-sysroot--disable-nls" ∈ cmd then some .binutils
  else if "--enable-languages=c,c++" ∈ cmd then some .gccStage1
  else if "--enable-lib64" ∈ cmd then some .mingwRuntime
  else if "all-target-libgcc" ∈ cmd then some .libgcc
  else
    match cmd with
    | [_, a] => if startsWithLit "--prefix=" a then some .mingwHeaders else none
    | _ => none

/-- Classifies an effect as the start of a build stage (only process
invocations start stages). -/
def stageOfEffect : Effect → Option Stage
  | .run cmd _ => stageOfCmd cmd
  | _ => none

/-- The sequence of build stages started along a trace. -/
def stageSeq (t : List Effect) : List Stage :=
  t.filterMap stageOfEffect

/-! ## Proof toolkit -/

theorem M_bind_run {α β : Type} (x : M α) (f : α → M β) (s : S) :
    (x >>= f) s =
      (let o := x s
       match o.result with
       | .ok a =>
         let o2 := f a o.state
         ⟨o.trace ++ o2.trace, o2.state, o2.result⟩
       | .error e => ⟨o.trace, o.state, .error e⟩) := rfl

theorem M_pure_run {α : Type} (a : α) (s : S) :
    (Pure.pure a : M α) s = ⟨[], s, .ok a⟩ := rfl

theorem data_suffix_append (s t : String) : t.data <:+ (s ++ t).data := by
  rw [String.data_append]
  exact ⟨s.data, rfl⟩

theorem data_prefix_append (s t : String) : s.data <+: (s ++ t).data := by
  rw [String.data_append]
  exact List.prefix_append _ _

theorem ne_of_distinct_suffixes {a b : String} {la lb : List Char}
    (ha : la <:+ a.data) (hb : lb <:+ b.data)
    (h1 : ¬ la <:+ lb) (h2 : ¬ lb <:+ la) : a ≠ b := by
  intro he
  subst he
  rcases List.suffix_or_suffix_of_suffix ha hb with h | h
  · exact h1 h
  · exact h2 h

theorem ne_of_distinct_prefixes {a b : String} {la lb : List Char}
    (ha : la <+: a.data) (hb : lb <+: b.data)
    (h1 : ¬ la <+: lb) (h2 : ¬ lb <+: la) : a ≠ b := by
  intro he
  subst he
  rcases List.prefix_or_prefix_of_prefix ha hb with h | h
  · exact h1 h
  · exact h2 h

theorem const_ne_joinPath {m c : String} (h1 : ¬ m.data <:+ c.data) (h2 : ¬ c.data <:+ m.data)
    (a : String) : m ≠ joinPath a c :=
  ne_of_distinct_suffixes List.suffix_rfl (data_suffix_append (a ++ "/") c) h1 h2

theorem const_ne_preVar {m p : String} (h1 : ¬ m.data <+: p.data) (h2 : ¬ p.data <+: m.data)
    (x : String) : m ≠ p ++ x :=
  ne_of_distinct_prefixes List.prefix_rfl (data_prefix_append p x) h1 h2

theorem preVar_ne_preVar {p q : String} (h1 : ¬ p.data <+: q.data) (h2 : ¬ q.data <+: p.data)
    (x y : String) : p ++ x ≠ q ++ y :=
  ne_of_distinct_prefixes (data_prefix_append p x) (data_prefix_append q y) h1 h2

theorem sufVar_ne_sufVar {u v : String} (h1 : ¬ u.data <:+ v.data) (h2 : ¬ v.data <:+ u.data)
    (x y : String) : x ++ u ≠ y ++ v :=
  ne_of_distinct_suffixes (data_suffix_append x u) (data_suffix_append y v) h1 h2

theorem startsWithLit_self_app (c x : String) : startsWithLit c (c ++ x) = true := by
  unfold startsWithLit
  rw [String.data_append]
  exact List.isPrefixOf_iff_prefix.mpr (List.prefix_append _ _)

theorem joinPath_ne_joinPath {c d : String} (h1 : ¬ c.data <:+ d.data) (h2 : ¬ d.data <:+ c.data)
    (a b : String) : joinPath a c ≠ joinPath b d :=
  ne_of_distinct_suffixes (data_suffix_append (a ++ "/") c) (data_suffix_append (b ++ "/") d) h1 h2

theorem startsWithLit_false {c p : String} (h1 : ¬ c.data <+: p.data)
    (h2 : ¬ p.data <+: c.data) (x : String) : startsWithLit c (p ++ x) = false := by
  cases hbe : startsWithLit c (p ++ x)
  · rfl
  · exfalso
    have hp : c.data <+: (p ++ x).data := List.isPrefixOf_iff_prefix.mp hbe
    rw [String.data_append] at hp
    rcases List.prefix_or_prefix_of_prefix hp (List.prefix_append p.data x.data) with h | h
    · exact h1 h
    · exact h2 h

theorem stage_isFileCheck (p : String) : stageOfEffect (.isFileCheck p) = none := rfl

theorem stage_existsCheck (p : String) : stageOfEffect (.existsCheck p) = none := rfl

theorem stage_shell (c : String) : stageOfEffect (.shell c) = none := rfl

theorem stage_download (u f : String) : stageOfEffect (.download u f) = none := rfl

theorem stage_makedirs (p : String) : stageOfEffect (.makedirs p) = none := rfl

theorem stage_mkdir (p : String) : stageOfEffect (.mkdir p) = none := rfl

theorem stage_removeFile (p : String) : stageOfEffect (.removeFile p) = none := rfl

theorem stage_rmtree (p : String) : stageOfEffect (.rmtree p) = none := rfl

theorem stage_message (m : String) : stageOfEffect (.message m) = none := rfl

theorem stage_run (cmd : List String) (cwd : Option String) :
    stageOfEffect (.run cmd cwd) = stageOfCmd cmd := rfl

theorem soc_make_install : stageOfCmd ["make", "install"] = none := by decide

theorem soc_make_install_gcc : stageOfCmd ["make", "install-gcc"] = none := by decide

theorem soc_make_install_tlibgcc : stageOfCmd ["make", "install-target-libgcc"] = none := by
  decide

theorem soc_brew_gmp : stageOfCmd ["brew", "--prefix", "gmp"] = none := by decide

theorem soc_brew_libmpc : stageOfCmd ["brew", "--prefix", "libmpc"] = none := by decide

theorem soc_brew_mpfr : stageOfCmd ["brew", "--prefix", "mpfr"] = none := by decide

theorem soc_make_j (x : String) : stageOfCmd ["make", "-j" ++ x] = none := by
  have h1 : ("--with-sysroot--disable-nls" : String) ≠ "-j" ++ x :=
    const_ne_preVar (by decide) (by decide) x
  have h2 : ("--enable-languages=c,c++" : String) ≠ "-j" ++ x :=
    const_ne_preVar (by decide) (by decide) x
  have h3 : ("--enable-lib64" : String) ≠ "-j" ++ x :=
    const_ne_preVar (by decide) (by decide) x
  have h4 : ("all-target-libgcc" : String) ≠ "-j" ++ x :=
    const_ne_preVar (by decide) (by decide) x
  simp [stageOfCmd, h1, h2, h3, h4, startsWithLit_false (c := "--prefix=") (p := "-j")
    (by decide) (by decide) x]

theorem soc_make_allgcc (x : String) : stageOfCmd ["make", "all-gcc", "-j" ++ x] = none := by
  have h1 : ("--with-sysroot--disable-nls" : String) ≠ "-j" ++ x :=
    const_ne_preVar (by decide) (by decide) x
  have h2 : ("--enable-languages=c,c++" : String) ≠ "-j" ++ x :=
    const_ne_preVar (by decide) (by decide) x
  have h3 : ("--enable-lib64" : String) ≠ "-j" ++ x :=
    const_ne_preVar (by decide) (by decide) x
  have h4 : ("all-target-libgcc" : String) ≠ "-j" ++ x :=
    const_ne_preVar (by decide) (by decide) x
  simp [stageOfCmd, h1, h2, h3, h4]

theorem soc_make_libgcc (x : String) :
    stageOfCmd ["make", "all-target-libgcc", "-j" ++ x] = some .libgcc := by
  have h1 : ("--with-sysroot--disable-nls" : String) ≠ "-j" ++ x :=
    const_ne_preVar (by decide) (by decide) x
  have h2 : ("--enable-languages=c,c++" : String) ≠ "-j" ++ x :=
    const_ne_preVar (by decide) (by decide) x
  have h3 : ("--enable-lib64" : String) ≠ "-j" ++ x :=
    const_ne_preVar (by decide) (by decide) x
  simp [stageOfCmd, h1, h2, h3]

theorem soc_git_clone (d : String) :
    stageOfCmd ["git", "clone", "https://github.com/mingw-w64/mingw-w64",
      joinPath d "mingw-w64"] = none := by
  have h1 : ("--with-sysroot--disable-nls" : String) ≠ joinPath d "mingw-w64" :=
    const_ne_joinPath (by decide) (by decide) d
  have h2 : ("--enable-languages=c,c++" : String) ≠ joinPath d "mingw-w64" :=
    const_ne_joinPath (by decide) (by decide) d
  have h3 : ("--enable-lib64" : String) ≠ joinPath d "mingw-w64" :=
    const_ne_joinPath (by decide) (by decide) d
  have h4 : ("all-target-libgcc" : String) ≠ joinPath d "mingw-w64" :=
    const_ne_joinPath (by decide) (by decide) d
  simp [stageOfCmd, h1, h2, h3, h4]

theorem soc_binutils_conf (a tgt pr : String) :
    stageOfCmd [joinPath a "configure", "--target=" ++ tgt, "--prefix=" ++ pr,
      "--with-sysroot--disable-nls", "--disable-multilib", "--disable-werror"] =
      some .binutils := by
  simp [stageOfCmd]

theorem soc_gcc_conf (a tgt pr : String) :
    stageOfCmd [joinPath a "configure", "--target=" ++ tgt, "--prefix=" ++ pr,
      "--disable-nls", "--enable-languages=c,c++", "--disable-multilib"] =
      some .gccStage1 := by
  have h1 : ("--with-sysroot--disable-nls" : String) ≠ joinPath a "configure" :=
    const_ne_joinPath (by decide) (by decide) a
  have h2 : ("--with-sysroot--disable-nls" : String) ≠ "--target=" ++ tgt :=
    const_ne_preVar (by decide) (by decide) tgt
  have h3 : ("--with-sysroot--disable-nls" : String) ≠ "--prefix=" ++ pr :=
    const_ne_preVar (by decide) (by decide) pr
  simp [stageOfCmd, h1, h2, h3]

theorem soc_gcc_conf_darwin (a tgt pr g c m : String) :
    stageOfCmd [joinPath a "configure", "--target=" ++ tgt, "--prefix=" ++ pr,
      "--disable-nls", "--enable-languages=c,c++", "--disable-multilib",
      "--with-gmp=" ++ g, "--with-mpc=" ++ c, "--with-mpfr=" ++ m] =
      some .gccStage1 := by
  have h1 : ("--with-sysroot--disable-nls" : String) ≠ joinPath a "configure" :=
    const_ne_joinPath (by decide) (by decide) a
  have h2 : ("--with-sysroot--disable-nls" : String) ≠ "--target=" ++ tgt :=
    const_ne_preVar (by decide) (by decide) tgt
  have h3 : ("--with-sysroot--disable-nls" : String) ≠ "--prefix=" ++ pr :=
    const_ne_preVar (by decide) (by decide) pr
  have h4 : ("--with-sysroot--disable-nls" : String) ≠ "--with-gmp=" ++ g :=
    const_ne_preVar (by decide) (by decide) g
  have h5 : ("--with-sysroot--disable-nls" : String) ≠ "--with-mpc=" ++ c :=
    const_ne_preVar (by decide) (by decide) c
  have h6 : ("--with-sysroot--disable-nls" : String) ≠ "--with-mpfr=" ++ m :=
    const_ne_preVar (by decide) (by decide) m
  simp [stageOfCmd, h1, h2, h3, h4, h5, h6]

theorem soc_headers_conf (a pd : String) :
    stageOfCmd [joinPath (joinPath a "mingw-w64-headers") "configure",
      "--prefix=" ++ pd] = some .mingwHeaders := by
  have h1 : ("--with-sysroot--disable-nls" : String) ≠
      joinPath (joinPath a "mingw-w64-headers") "configure" :=
    const_ne_joinPath (by decide) (by decide) _
  have h2 : ("--enable-languages=c,c++" : String) ≠
      joinPath (joinPath a "mingw-w64-headers") "configure" :=
    const_ne_joinPath (by decide) (by decide) _
  have h3 : ("--enable-lib64" : String) ≠
      joinPath (joinPath a "mingw-w64-headers") "configure" :=
    const_ne_joinPath (by decide) (by decide) _
  have h4 : ("all-target-libgcc" : String) ≠
      joinPath (joinPath a "mingw-w64-headers") "configure" :=
    const_ne_joinPath (by decide) (by decide) _
  have h5 : ("--with-sysroot--disable-nls" : String) ≠ "--prefix=" ++ pd :=
    const_ne_preVar (by decide) (by decide) pd
  have h6 : ("--enable-languages=c,c++" : String) ≠ "--prefix=" ++ pd :=
    const_ne_preVar (by decide) (by decide) pd
  have h7 : ("--enable-lib64" : String) ≠ "--prefix=" ++ pd :=
    const_ne_preVar (by decide) (by decide) pd
  have h8 : ("all-target-libgcc" : String) ≠ "--prefix=" ++ pd :=
    const_ne_preVar (by decide) (by decide) pd
  simp [stageOfCmd, h1, h2, h3, h4, h5, h6, h7, h8, startsWithLit_self_app]

theorem soc_crt_conf (a pd q t : String) :
    stageOfCmd [joinPath (joinPath a "mingw-w64-crt") "configure",
      "--prefix=" ++ pd, "--host=" ++ t, "--with-sysroot=" ++ q,
      "--enable-lib64", "--disable-lib32"] = some .mingwRuntime := by
  have h1 : ("--with-sysroot--disable-nls" : String) ≠
      joinPath (joinPath a "mingw-w64-crt") "configure" :=
    const_ne_joinPath (by decide) (by decide) _
  have h2 : ("--enable-languages=c,c++" : String) ≠
      joinPath (joinPath a "mingw-w64-crt") "configure" :=
    const_ne_joinPath (by decide) (by decide) _
  have h3 : ("--with-sysroot--disable-nls" : String) ≠ "--prefix=" ++ pd :=
    const_ne_preVar (by decide) (by decide) pd
  have h4 : ("--enable-languages=c,c++" : String) ≠ "--prefix=" ++ pd :=
    const_ne_preVar (by decide) (by decide) pd
  have h5 : ("--with-sysroot--disable-nls" : String) ≠ "--host=" ++ t :=
    const_ne_preVar (by decide) (by decide) t
  have h6 : ("--enable-languages=c,c++" : String) ≠ "--host=" ++ t :=
    const_ne_preVar (by decide) (by decide) t
  have h7 : ("--with-sysroot--disable-nls" : String) ≠ "--with-sysroot=" ++ q :=
    const_ne_preVar (by decide) (by decide) q
  have h8 : ("--enable-languages=c,c++" : String) ≠ "--with-sysroot=" ++ q :=
    const_ne_preVar (by decide) (by decide) q
  simp [stageOfCmd, h1, h2, h3, h4, h5, h6, h7, h8]

/-! ## Claim C10: CFLAGS/CXXFLAGS concatenation -/

/-- C10: in the derived build environment, an ambient CFLAGS (or CXXFLAGS)
value is concatenated directly with the new flag string with no separating
space; when the ambient variable is absent the derived value is exactly the
new flag string. -/
theorem c10_env_concat (ambient : String → Option String) (params : ToolchainParams)
    (this_platform : String) :
    (∀ v, ambient "CFLAGS" = some v →
      compose_build_env ambient params this_platform "CFLAGS" =
        some (v ++ joinSpace (base_cflags params.tune_for_native this_platform))) ∧
    (ambient "CFLAGS" = none →
      compose_build_env ambient params this_platform "CFLAGS" =
        some (joinSpace (base_cflags params.tune_for_native this_platform))) ∧
    (∀ v, ambient "CXXFLAGS" = some v →
      compose_build_env ambient params this_platform "CXXFLAGS" =
        some (v ++ joinSpace (base_cflags params.tune_for_native this_platform))) ∧
    (ambient "CXXFLAGS" = none →
      compose_build_env ambient params this_platform "CXXFLAGS" =
        some (joinSpace (base_cflags params.tune_for_native this_platform))) := by
  refine ⟨fun v hv => ?_, fun hv => ?_, fun v hv => ?_, fun hv => ?_⟩ <;>
    simp [compose_build_env, envSet, envGetD, hv]

/-- C10 witness: the example of the claim, ambient `CFLAGS=-O3` becomes
`-O3-g -O2` (no separating space), evaluated at a concrete request. -/
theorem c10_witness :
    (fun k => if k = "CFLAGS" then some "-O3" else (none : Option String)) "CFLAGS" =
      some "-O3" ∧
    compose_build_env (fun k => if k = "CFLAGS" then some "-O3" else none)
      ⟨"gcc", "x86_64", "elf", "/r", false, false, "/s", false, false⟩ "Linux" "CFLAGS" =
      some "-O3-g -O2" := by
  refine ⟨rfl, ?_⟩
  have h := (c10_env_concat (fun k => if k = "CFLAGS" then some "-O3" else none)
    ⟨"gcc", "x86_64", "elf", "/r", false, false, "/s", false, false⟩ "Linux").1 "-O3" rfl
  rw [h]
  rfl

/-! ## Claim C2: unknown target architecture -/

/-- C2 counterexample: for the architecture "arm", which is not a key of
the architecture-to-prefix table, construction of the build-parameters
object succeeds (the `__init__` performs no validation), contradicting the
claim that construction itself fails. -/
theorem c2_counterexample :
    arch_to_pfx.lookup "arm" = none ∧
    ToolchainParams.construct "gcc" "arm" "musl" "/r" true false "/s" false false =
      .ok ⟨"gcc", "arm", "musl", "/r", true, false, "/s", false, false⟩ := by
  exact ⟨rfl, rfl⟩

/-- C2 amended: for a target architecture that is not a key of the
architecture-to-prefix table, the GCC-pipeline orchestrator fails at prefix
derivation, its very first step, with an empty effect trace: no external
process is spawned and nothing is touched, but the failure is at pipeline
start, not at construction of the parameters object. -/
theorem c2_unknown_arch_fails_before_any_process (w : World) (params : ToolchainParams)
    (s : S) (h : arch_to_pfx.lookup params.target_arch = none) :
    (ensure_gcc_toolchain w params) s = ⟨[], s, .error "KeyError: target_arch"⟩ := by
  simp [ensure_gcc_toolchain, gcc_prefix_of, h, throwE]

/-- C2 witness: the amended theorem applied at the concrete architecture
"arm". -/
theorem c2_witness :
    arch_to_pfx.lookup "arm" = none ∧
    (ensure_gcc_toolchain
        ⟨"Linux", fun _ => none, 1, fun _ => 0, fun _ => 0, fun _ => "", fun _ => ""⟩
        ⟨"gcc", "arm", "musl", "/r", true, false, "/s", false, false⟩)
      ⟨⟨fun _ => false, fun _ => false⟩, ⟨none, false⟩⟩ =
      ⟨[], ⟨⟨fun _ => false, fun _ => false⟩, ⟨none, false⟩⟩, .error "KeyError: target_arch"⟩ := by
  exact ⟨rfl, c2_unknown_arch_fails_before_any_process _ _ _ rfl⟩

/-! ## Claim C6: source acquisition idempotency -/

/-- C6: if the target extraction directory exists, neither download nor
extraction happens, regardless of tarball presence; otherwise the tarball
is downloaded only when absent and then extracted with
`--strip-components 1` into the freshly created directory. -/
theorem c6_download_extract (w : World) (url f d plat : String) (s : S)
    (hw : ∀ c, w.exitCode c = 0) :
    (s.fs.pexists d = true →
      (download_and_extract w url f d plat) s =
        ⟨[.existsCheck d, .message (d ++ " already exists")], s, .ok false⟩) ∧
    (s.fs.pexists d = false → s.fs.pexists f = true →
      (download_and_extract w url f d plat) s =
        ⟨[.existsCheck d, .existsCheck f,
          .message (f ++ " already exists, not downloading"), .mkdir d,
          .message ("Unpacking " ++ f ++ "..."), .run (tarCmd f d plat) none,
          .message ""],
         { s with fs := s.fs.addDir d }, .ok true⟩) ∧
    (s.fs.pexists d = false → s.fs.pexists f = false →
      (download_and_extract w url f d plat) s =
        ⟨[.existsCheck d, .existsCheck f, .message ("Downloading " ++ url ++ "..."),
          .download url f, .mkdir d, .message ("Unpacking " ++ f ++ "..."),
          .run (tarCmd f d plat) none, .message ""],
         { s with fs := (s.fs.addFile f).addDir d }, .ok true⟩) := by
  refine ⟨fun h1 => ?_, fun h1 h2 => ?_, fun h1 h2 => ?_⟩
  · simp [download_and_extract, pexistsM, printM, downloadM, mkdirM, runChecked, tarCmd,
      M_bind_run, M_pure_run, h1, hw]
  · simp [download_and_extract, pexistsM, printM, downloadM, mkdirM, runChecked, tarCmd,
      M_bind_run, M_pure_run, h1, h2, hw]
  · simp [download_and_extract, pexistsM, printM, downloadM, mkdirM, runChecked, tarCmd,
      M_bind_run, M_pure_run, h1, h2, hw]

/-- C6 witness: a pre-existing extraction directory with the tarball also
present: acquisition performs only the existence check and a notice. -/
theorem c6_witness :
    (FS.pexists ⟨fun p => p = "/s/gcc.tar.gz", fun p => p = "/s/gcc_sources"⟩
      "/s/gcc_sources") = true ∧
    (download_and_extract
        ⟨"Linux", fun _ => none, 1, fun _ => 0, fun _ => 0, fun _ => "", fun _ => ""⟩
        "u" "/s/gcc.tar.gz" "/s/gcc_sources" "Linux")
      ⟨⟨fun p => p = "/s/gcc.tar.gz", fun p => p = "/s/gcc_sources"⟩, ⟨none, false⟩⟩ =
      ⟨[.existsCheck "/s/gcc_sources", .message "/s/gcc_sources already exists"],
       ⟨⟨fun p => p = "/s/gcc.tar.gz", fun p => p = "/s/gcc_sources"⟩, ⟨none, false⟩⟩,
       .ok false⟩ := by
  refine ⟨by simp [FS.pexists], ?_⟩
  exact (c6_download_extract _ "u" "/s/gcc.tar.gz" "/s/gcc_sources" "Linux" _
    (fun _ => rfl)).1 (by simp [FS.pexists])

/-! ## Claim C7: apt index refresh before first install, once per process -/

/-- Helper: once the `did_update` flag is set, an install sequence emits no
further `apt-get update` invocation and keeps the flag set. -/
theorem aptInstallSeq_no_update (w : World) (ds : List String) :
    ∀ s : S, s.pm.aptDidUpdate = true →
      Effect.run ["sudo", "apt-get", "update"] none ∉ ((aptInstallSeq w ds) s).trace ∧
      ((aptInstallSeq w ds) s).state.pm.aptDidUpdate = true := by
  induction ds with
  | nil =>
    intro s h
    simp [aptInstallSeq, M_pure_run, h]
  | cons d rest ih =>
    intro s h
    by_cases hc : w.exitCode ["sudo", "apt-get", "install", "-y", d] = 0
    · have h2 := ih s
      constructor
      · simp [aptInstallSeq, Apt.install_dep, getPMStateM, runUnchecked, setAptDidUpdateM,
          runChecked, M_bind_run, M_pure_run, h, hc]
        exact (ih s h).1
      · simp [aptInstallSeq, Apt.install_dep, getPMStateM, runUnchecked, setAptDidUpdateM,
          runChecked, M_bind_run, M_pure_run, h, hc]
        exact (ih s h).2
    · constructor
      · simp [aptInstallSeq, Apt.install_dep, getPMStateM, runUnchecked, setAptDidUpdateM,
          runChecked, M_bind_run, M_pure_run, h, hc]
      · simp [aptInstallSeq, Apt.install_dep, getPMStateM, runUnchecked, setAptDidUpdateM,
          runChecked, M_bind_run, M_pure_run, h, hc]

/-- C7: for any non-empty sequence of apt install calls starting in a fresh
process (flag unset), the very first emitted external invocation is the
index refresh `apt-get update`, so it precedes the first install, and it is
never emitted again for any subsequent install of the sequence. -/
theorem c7_apt_refresh_first_and_once (w : World) (deps : List String) (s : S)
    (h0 : s.pm.aptDidUpdate = false) (hne : deps ≠ []) :
    ∃ rest, ((aptInstallSeq w deps) s).trace =
        .run ["sudo", "apt-get", "update"] none :: rest ∧
      Effect.run ["sudo", "apt-get", "update"] none ∉ rest := by
  match deps, hne with
  | d :: ds, _ =>
    by_cases hc : w.exitCode ["sudo", "apt-get", "install", "-y", d] = 0
    · refine ⟨Effect.run ["sudo", "apt-get", "install", "-y", d] none ::
        ((aptInstallSeq w ds) { s with pm := { s.pm with aptDidUpdate := true } }).trace,
        ?_, ?_⟩
      · simp [aptInstallSeq, Apt.install_dep, getPMStateM, runUnchecked, setAptDidUpdateM,
          runChecked, M_bind_run, M_pure_run, h0, hc]
      · have hni := (aptInstallSeq_no_update w ds
          { s with pm := { s.pm with aptDidUpdate := true } } rfl).1
        simp [hni]
    · refine ⟨[Effect.run ["sudo", "apt-get", "install", "-y", d] none], ?_, ?_⟩
      · simp [aptInstallSeq, Apt.install_dep, getPMStateM, runUnchecked, setAptDidUpdateM,
          runChecked, M_bind_run, M_pure_run, h0, hc]
      · simp

/-- C7 witness: two installs in one fresh process emit exactly one leading
refresh. -/
theorem c7_witness :
    (⟨⟨fun _ => false, fun _ => false⟩, ⟨none, false⟩⟩ : S).pm.aptDidUpdate = false ∧
    (["bison", "flex"] : List String) ≠ [] ∧
    ∃ rest, ((aptInstallSeq
        ⟨"Linux", fun _ => none, 1, fun _ => 0, fun _ => 0, fun _ => "", fun _ => ""⟩
        ["bison", "flex"])
        ⟨⟨fun _ => false, fun _ => false⟩, ⟨none, false⟩⟩).trace =
        .run ["sudo", "apt-get", "update"] none :: rest ∧
      Effect.run ["sudo", "apt-get", "update"] none ∉ rest := by
  refine ⟨rfl, by decide, ?_⟩
  exact c7_apt_refresh_first_and_once _ ["bison", "flex"] _ rfl (by decide)

/-! ## Claim C9: apt refresh failure is silently ignored -/

/-- C9: when the one-time `apt-get update` fails (non-zero exit), the
failure is invisible: the update is run unchecked, the `did_update` flag is
still set, the package install is attempted anyway (the overall result
depends only on the install), and a second install call in the same
process does not re-attempt the refresh. -/
theorem c9_apt_refresh_failure_ignored (w : World) (d d2 : String) (s : S)
    (h0 : s.pm.aptDidUpdate = false)
    (hfail : w.exitCode ["sudo", "apt-get", "update"] ≠ 0) :
    (Apt.install_dep w d) s =
      ⟨[.run ["sudo", "apt-get", "update"] none,
        .run ["sudo", "apt-get", "install", "-y", d] none],
       { s with pm := { s.pm with aptDidUpdate := true } },
       if w.exitCode ["sudo", "apt-get", "install", "-y", d] = 0 then .ok ()
       else .error "CalledProcessError"⟩ ∧
    (∀ e ∈ ((Apt.install_dep w d2)
        { s with pm := { s.pm with aptDidUpdate := true } }).trace,
      e ≠ .run ["sudo", "apt-get", "update"] none) := by
  constructor
  · by_cases hc : w.exitCode ["sudo", "apt-get", "install", "-y", d] = 0 <;>
      simp [Apt.install_dep, getPMStateM, runUnchecked, setAptDidUpdateM, runChecked,
        M_bind_run, M_pure_run, h0, hc]
  · intro e he
    by_cases hc : w.exitCode ["sudo", "apt-get", "install", "-y", d2] = 0 <;>
      simp [Apt.install_dep, getPMStateM, runUnchecked, setAptDidUpdateM, runChecked,
        M_bind_run, M_pure_run, hc] at he <;>
      simp [he]

/-- C9 witness: a world whose `apt-get update` exits 1 while installs exit
0; the refresh failure is ignored and the install succeeds. -/
theorem c9_witness :
    ((⟨⟨fun _ => false, fun _ => false⟩, ⟨none, false⟩⟩ : S).pm.aptDidUpdate = false ∧
      (⟨"Linux", fun _ => none, 1,
        fun c => if c = ["sudo", "apt-get", "update"] then 1 else 0,
        fun _ => 0, fun _ => "", fun _ => ""⟩ : World).exitCode
          ["sudo", "apt-get", "update"] ≠ 0) ∧
    (Apt.install_dep
        ⟨"Linux", fun _ => none, 1,
          fun c => if c = ["sudo", "apt-get", "update"] then 1 else 0,
          fun _ => 0, fun _ => "", fun _ => ""⟩ "bison")
      ⟨⟨fun _ => false, fun _ => false⟩, ⟨none, false⟩⟩ =
      ⟨[.run ["sudo", "apt-get", "update"] none,
        .run ["sudo", "apt-get", "install", "-y", "bison"] none],
       ⟨⟨fun _ => false, fun _ => false⟩, ⟨none, true⟩⟩, .ok ()⟩ := by
  refine ⟨⟨rfl, by decide⟩, ?_⟩
  have h := (c9_apt_refresh_failure_ignored
    ⟨"Linux", fun _ => none, 1,
      fun c => if c = ["sudo", "apt-get", "update"] then 1 else 0,
      fun _ => 0, fun _ => "", fun _ => ""⟩ "bison" "flex"
    ⟨⟨fun _ => false, fun _ => false⟩, ⟨none, false⟩⟩ rfl (by decide)).1
  rw [h]
  simp

/-! ## Claim C8: package-manager detection policy -/

/-- C8: with an empty detection cache, a Darwin host selects Brew
unconditionally with no probing (empty trace); any other host probes
apt, pacman, brew in that fixed order by shelling `command -v`, the first
match wins and is cached, and if none matches detection fails with the
no-package-manager-found error. -/
theorem c8_detection (w : World) (s : S) (hc : s.pm.cached = none) :
    (w.system = "Darwin" →
      (get_package_manager w) s =
        ⟨[], { s with pm := { s.pm with cached := some .brew } }, .ok .brew⟩) ∧
    (w.system ≠ "Darwin" →
      (get_package_manager w) s =
        if w.shellCode "command -v apt" = 0 then
          ⟨[.shell "command -v apt", .message "Detected package manager apt"],
           { s with pm := { s.pm with cached := some .apt } }, .ok .apt⟩
        else if w.shellCode "command -v pacman" = 0 then
          ⟨[.shell "command -v apt", .shell "command -v pacman",
            .message "Detected package manager pacman"],
           { s with pm := { s.pm with cached := some .pacman } }, .ok .pacman⟩
        else if w.shellCode "command -v brew" = 0 then
          ⟨[.shell "command -v apt", .shell "command -v pacman", .shell "command -v brew",
            .message "Detected package manager brew"],
           { s with pm := { s.pm with cached := some .brew } }, .ok .brew⟩
        else
          ⟨[.shell "command -v apt", .shell "command -v pacman", .shell "command -v brew"],
           s, .error "Couldn\x27t detect a supported package manager"⟩) := by
  constructor
  · intro h
    simp [get_package_manager, getPMStateM, setCachedM, M_bind_run, M_pure_run, hc, h]
  · intro h
    have hb : (w.system == "Darwin") = false := by
      simp [h]
    by_cases h1 : w.shellCode "command -v apt" = 0
    · simp [get_package_manager, getPMStateM, setCachedM, detectLoop, PACKAGE_MANAGERS,
        pmDetect, Apt.detect, command_exists, shellRun, printM, pmName,
        M_bind_run, M_pure_run, hc, hb, h1]
    · by_cases h2 : w.shellCode "command -v pacman" = 0
      · simp [get_package_manager, getPMStateM, setCachedM, detectLoop, PACKAGE_MANAGERS,
          pmDetect, Apt.detect, Pacman.detect, command_exists, shellRun, printM, pmName,
          M_bind_run, M_pure_run, hc, hb, h1, h2]
      · by_cases h3 : w.shellCode "command -v brew" = 0
        · simp [get_package_manager, getPMStateM, setCachedM, detectLoop, PACKAGE_MANAGERS,
            pmDetect, Apt.detect, Pacman.detect, Brew.detect, command_exists, shellRun,
            printM, pmName, M_bind_run, M_pure_run, hc, hb, h1, h2, h3]
        · simp [get_package_manager, getPMStateM, setCachedM, detectLoop, PACKAGE_MANAGERS,
            pmDetect, Apt.detect, Pacman.detect, Brew.detect, command_exists, shellRun,
            printM, pmName, throwE, M_bind_run, M_pure_run, hc, hb, h1, h2, h3]

/-- C8 witness: detection on a Darwin host (no probing, Brew) and on a
non-Darwin host where only pacman is on the path (apt probed first, pacman
selected). -/
theorem c8_witness :
    ((⟨⟨fun _ => false, fun _ => false⟩, ⟨none, false⟩⟩ : S).pm.cached = none ∧
      (get_package_manager
          ⟨"Darwin", fun _ => none, 1, fun _ => 0, fun _ => 1, fun _ => "", fun _ => ""⟩)
        ⟨⟨fun _ => false, fun _ => false⟩, ⟨none, false⟩⟩ =
        ⟨[], ⟨⟨fun _ => false, fun _ => false⟩, ⟨some .brew, false⟩⟩, .ok .brew⟩) ∧
    (get_package_manager
        ⟨"Linux", fun _ => none, 1, fun _ => 0,
          fun c => if c = "command -v pacman" then 0 else 1, fun _ => "", fun _ => ""⟩)
      ⟨⟨fun _ => false, fun _ => false⟩, ⟨none, false⟩⟩ =
      ⟨[.shell "command -v apt", .shell "command -v pacman",
        .message "Detected package manager pacman"],
       ⟨⟨fun _ => false, fun _ => false⟩, ⟨some .pacman, false⟩⟩, .ok .pacman⟩ := by
  constructor
  · refine ⟨rfl, ?_⟩
    exact (c8_detection
      ⟨"Darwin", fun _ => none, 1, fun _ => 0, fun _ => 1, fun _ => "", fun _ => ""⟩
      ⟨⟨fun _ => false, fun _ => false⟩, ⟨none, false⟩⟩ rfl).1 rfl
  · have h := (c8_detection
      ⟨"Linux", fun _ => none, 1, fun _ => 0,
        fun c => if c = "command -v pacman" then 0 else 1, fun _ => "", fun _ => ""⟩
      ⟨⟨fun _ => false, fun _ => false⟩, ⟨none, false⟩⟩ rfl).2 (by decide)
    rw [h]
    simp

/-! ## Characterization lemmas for the pipeline pieces -/

theorem suffix_in_append_left {l : List Char} {u : String} (h : l <:+ u.data) (x : String) :
    l <:+ (x ++ u).data := by
  rw [String.data_append]
  exact h.trans ⟨x.data, rfl⟩

theorem prefix_in_append_right {l : List Char} {u : String} (h : l <+: u.data) (x : String) :
    l <+: (u ++ x).data := by
  rw [String.data_append]
  exact h.trans (List.prefix_append _ _)

theorem clone_mingw_skip_run (w : World) (td : String) (s : S)
    (h : s.fs.pexists td = true) :
    (clone_mingw_w64 w td) s =
      ⟨[.existsCheck td, .message "mingw-w64 already cloned, skipping"], s, .ok ()⟩ := by
  simp [clone_mingw_w64, pexistsM, printM, M_bind_run, M_pure_run, h]

theorem clone_mingw_fresh_run (w : World) (td : String) (s : S)
    (h : s.fs.pexists td = false) (hw : ∀ c, w.exitCode c = 0) :
    (clone_mingw_w64 w td) s =
      ⟨[.existsCheck td, .message "Downloading mingw-w64...",
        .run ["git", "clone", "https://github.com/mingw-w64/mingw-w64", td] none],
       { s with fs := s.fs.addDir td }, .ok ()⟩ := by
  simp [clone_mingw_w64, pexistsM, printM, runChecked, M_bind_run, M_pure_run, h, hw]

theorem build_binutils_run (w : World) (bs bd tgt pr : String) (s : S)
    (hw : ∀ c, w.exitCode c = 0) :
    (build_binutils w bs bd tgt pr) s =
      ⟨[.message "Building binutils...",
        .run [joinPath bs "configure", "--target=" ++ tgt, "--prefix=" ++ pr,
          "--with-sysroot--disable-nls", "--disable-multilib", "--disable-werror"] (some bd),
        .run ["make", cpuJobs w] (some bd),
        .run ["make", "install"] (some bd)], s, .ok ()⟩ := by
  simp [build_binutils, runChecked, printM, M_bind_run, M_pure_run, hw]

theorem install_mingw_headers_run (w : World) (src pd td : String) (s : S)
    (hw : ∀ c, w.exitCode c = 0) :
    (install_mingw_headers w src pd td) s =
      ⟨[.makedirs (joinPath td "mingw_headers"), .message "Installing mingw headers...",
        .run [joinPath (joinPath src "mingw-w64-headers") "configure", "--prefix=" ++ pd]
          (some (joinPath td "mingw_headers")),
        .run ["make", "install"] (some (joinPath td "mingw_headers")),
        .rmtree (joinPath td "mingw_headers")],
       { s with fs := FS.rmtreeP (FS.addDir s.fs (joinPath td "mingw_headers")) (joinPath td "mingw_headers") }, .ok ()⟩ := by
  simp [install_mingw_headers, makedirsM, rmtreeM, runChecked, printM,
    M_bind_run, M_pure_run, hw]

theorem install_mingw_libs_run (w : World) (src tgt pd td : String) (s : S)
    (hw : ∀ c, w.exitCode c = 0) :
    (install_mingw_libs w src tgt pd td) s =
      ⟨[.makedirs (joinPath td "mingw_crt"), .message "Compiling mingw crt...",
        .run [joinPath (joinPath src "mingw-w64-crt") "configure", "--prefix=" ++ pd,
          "--host=" ++ tgt, "--with-sysroot=" ++ pd, "--enable-lib64", "--disable-lib32"]
          (some (joinPath td "mingw_crt")),
        .run ["make", cpuJobs w] (some (joinPath td "mingw_crt")),
        .run ["make", "install"] (some (joinPath td "mingw_crt")),
        .rmtree (joinPath td "mingw_crt")],
       { s with fs := FS.rmtreeP (FS.addDir s.fs (joinPath td "mingw_crt")) (joinPath td "mingw_crt") }, .ok ()⟩ := by
  simp [install_mingw_libs, makedirsM, rmtreeM, runChecked, printM,
    M_bind_run, M_pure_run, hw]

theorem build_gcc_run_other (w : World) (gs gd plat tp pr : String) (s : S)
    (hd : (plat == "Darwin") = false) (hw : ∀ c, w.exitCode c = 0) :
    (build_gcc w gs gd plat tp pr) s =
      ⟨[.message "Building GCC...",
        .run [joinPath gs "configure", "--target=" ++ tp, "--prefix=" ++ pr,
          "--disable-nls", "--enable-languages=c,c++", "--disable-multilib"] (some gd),
        .run ["make", "all-gcc", cpuJobs w] (some gd),
        .run ["make", "install-gcc"] (some gd)], s, .ok ()⟩ := by
  simp [build_gcc, runChecked, printM, M_bind_run, M_pure_run, hd, hw]

theorem build_gcc_run_darwin (w : World) (gs gd plat tp pr : String) (s : S)
    (hd : (plat == "Darwin") = true) (hw : ∀ c, w.exitCode c = 0) :
    (build_gcc w gs gd plat tp pr) s =
      ⟨[.run ["brew", "--prefix", "gmp"] none, .run ["brew", "--prefix", "libmpc"] none,
        .run ["brew", "--prefix", "mpfr"] none, .message "Building GCC...",
        .run [joinPath gs "configure", "--target=" ++ tp, "--prefix=" ++ pr,
          "--disable-nls", "--enable-languages=c,c++", "--disable-multilib",
          "--with-gmp=" ++ strStrip (w.brewPrefixOut "gmp"),
          "--with-mpc=" ++ strStrip (w.brewPrefixOut "libmpc"),
          "--with-mpfr=" ++ strStrip (w.brewPrefixOut "mpfr")] (some gd),
        .run ["make", "all-gcc", cpuJobs w] (some gd),
        .run ["make", "install-gcc"] (some gd)], s, .ok ()⟩ := by
  simp [build_gcc, Brew.pfxOf, checkOutputM, runChecked, printM,
    M_bind_run, M_pure_run, hd, hw]

theorem build_libgcc_run (w : World) (gd : String) (s : S)
    (hw : ∀ c, w.exitCode c = 0) :
    (build_libgcc w gd) s =
      ⟨[.run ["make", "all-target-libgcc", cpuJobs w] (some gd),
        .run ["make", "install-target-libgcc"] (some gd)], s, .ok ()⟩ := by
  simp [build_libgcc, runChecked, M_bind_run, M_pure_run, hw]

/-! ## Claim C1: completion-marker short circuit -/

/-- C1: when both completion-marker files `<root>/bin/<p>-gcc` and
`<root>/bin/<p>-ld` exist (prefix `p` derived from architecture and
platform), the GCC-pipeline orchestrator performs exactly the two file
existence checks and a notice: no process is spawned, the filesystem and
all state are untouched, and it returns success immediately, so a repeat
invocation with identical parameters does no build work. -/
theorem c1_short_circuit (w : World) (params : ToolchainParams) (pfxStr : String) (s : S)
    (hp : gcc_prefix_of params = some pfxStr)
    (hgcc : s.fs.files (joinPath (joinPath params.root_dir "bin") (pfxStr ++ "-") ++ "gcc") =
      true)
    (hld : s.fs.files (joinPath (joinPath params.root_dir "bin") (pfxStr ++ "-") ++ "ld") =
      true) :
    (ensure_gcc_toolchain w params) s =
      ⟨[.isFileCheck (joinPath (joinPath params.root_dir "bin") (pfxStr ++ "-") ++ "gcc"),
        .isFileCheck (joinPath (joinPath params.root_dir "bin") (pfxStr ++ "-") ++ "ld"),
        .message ("Toolchain for " ++ params.target_arch ++ " is already built")],
       s, .ok ()⟩ := by
  simp [ensure_gcc_toolchain, is_gcc_toolchain_built, isFileM, printM,
    M_bind_run, M_pure_run, hp, hgcc, hld]

/-- C1 witness: a filesystem holding exactly `/r/bin/x86_64-elf-gcc` and
`/r/bin/x86_64-elf-ld`: the orchestrator emits only the two checks and the
notice and changes nothing. -/
theorem c1_witness :
    gcc_prefix_of ⟨"gcc", "x86_64", "elf", "/r", false, false, "/s", false, false⟩ =
      some "x86_64-elf" ∧
    (ensure_gcc_toolchain
        ⟨"Linux", fun _ => none, 1, fun _ => 0, fun _ => 0, fun _ => "", fun _ => ""⟩
        ⟨"gcc", "x86_64", "elf", "/r", false, false, "/s", false, false⟩)
      ⟨⟨fun p => p == "/r/bin/x86_64-elf-gcc" || p == "/r/bin/x86_64-elf-ld",
        fun _ => false⟩, ⟨none, false⟩⟩ =
      ⟨[.isFileCheck "/r/bin/x86_64-elf-gcc", .isFileCheck "/r/bin/x86_64-elf-ld",
        .message "Toolchain for x86_64 is already built"],
       ⟨⟨fun p => p == "/r/bin/x86_64-elf-gcc" || p == "/r/bin/x86_64-elf-ld",
         fun _ => false⟩, ⟨none, false⟩⟩, .ok ()⟩ := by
  refine ⟨by decide, ?_⟩
  exact c1_short_circuit _ _ "x86_64-elf" _ (by decide) (by decide) (by decide)

theorem formatTemplate_x86_64 (p : String) :
    formatTemplate "x86_64-{platform}" p = "x86_64-" ++ p := by
  apply String.ext
  rw [String.data_append]
  show substChars 18 "x86_64-{platform}".data "{platform}".data p.data =
    "x86_64-".data ++ p.data
  simp [substChars]

theorem formatTemplate_i686 (p : String) :
    formatTemplate "i686-{platform}" p = "i686-" ++ p := by
  apply String.ext
  rw [String.data_append]
  show substChars 16 "i686-{platform}".data "{platform}".data p.data =
    "i686-".data ++ p.data
  simp [substChars]

/-- Every derivable compiler prefix is `<arch>-<platform>` for one of the
two table architectures. -/
theorem gcc_prefix_shape (params : ToolchainParams) (pfxStr : String)
    (hp : gcc_prefix_of params = some pfxStr) :
    pfxStr = "x86_64-" ++ params.target_platform ∨
      pfxStr = "i686-" ++ params.target_platform := by
  by_cases h1 : params.target_arch = "x86_64"
  · left
    simp [gcc_prefix_of, arch_to_pfx, List.lookup, h1] at hp
    rw [← hp, formatTemplate_x86_64]
  · by_cases h2 : params.target_arch = "i686"
    · right
      simp [gcc_prefix_of, arch_to_pfx, List.lookup, h1, h2] at hp
      rw [← hp, formatTemplate_i686]
    · exfalso
      have hb1 : (params.target_arch == "x86_64") = false := by simp [h1]
      have hb2 : (params.target_arch == "i686") = false := by simp [h2]
      simp [gcc_prefix_of, arch_to_pfx, List.lookup, hb1, hb2] at hp

/-- The derived prefix is never the literal `mingw-w64`, so the MinGW
sysroot directory `<root>/<p>` never collides with the clone directory
`<root>/mingw-w64`. -/
theorem pfx_ne_mingw_clone_dir (params : ToolchainParams) (pfxStr : String)
    (hp : gcc_prefix_of params = some pfxStr) : pfxStr ≠ "mingw-w64" := by
  rcases gcc_prefix_shape params pfxStr hp with h | h <;> subst h
  · exact (const_ne_preVar (by decide) (by decide) params.target_platform).symm
  · exact (const_ne_preVar (by decide) (by decide) params.target_platform).symm

theorem joinPath_ne_of_ne (a : String) {b c : String} (h : b ≠ c) :
    joinPath a b ≠ joinPath a c := by
  intro he
  apply h
  have hd := congrArg String.data he
  rw [joinPath, joinPath, String.data_append, String.data_append] at hd
  exact String.ext (List.append_cancel_left hd)

/-! ## Claim C4: stage ordering -/

/-- C4: under a world where external invocations succeed, the stages the
pipeline starts, in order, are binutils, MinGW headers, GCC stage 1, MinGW
runtime, libgcc for MinGW target platforms — headers immediately after
binutils, runtime immediately after GCC stage 1, both before libgcc — and
exactly binutils, GCC stage 1, libgcc (the same residual order, with both
MinGW stages omitted) for non-MinGW target platforms. -/
theorem c4_stage_order (w : World) (params : ToolchainParams) (gs bs plat : String)
    (s : S) (pfxStr : String)
    (hp : gcc_prefix_of params = some pfxStr)
    (hw : ∀ c, w.exitCode c = 0) :
    stageSeq ((build_gcc_toolchain w params gs bs plat) s).trace =
      if strContains params.target_platform "mingw" = true then
        [.binutils, .mingwHeaders, .gccStage1, .mingwRuntime, .libgcc]
      else [.binutils, .gccStage1, .libgcc] := by
  have hne : joinPath params.root_dir "mingw-w64" ≠ joinPath params.root_dir pfxStr :=
    joinPath_ne_of_ne _ (pfx_ne_mingw_clone_dir params pfxStr hp).symm
  have hcl2 : (FS.addDir s.fs (joinPath params.root_dir pfxStr)).pexists
      (joinPath params.root_dir "mingw-w64") =
      s.fs.pexists (joinPath params.root_dir "mingw-w64") := by
    simp [FS.pexists, FS.addDir, hne]
  by_cases hm : strContains params.target_platform "mingw" = true <;>
    by_cases hcl : s.fs.pexists (joinPath params.root_dir "mingw-w64") = true <;>
    by_cases hd : (plat == "Darwin") = true <;>
    by_cases hks : params.keep_sources = true <;>
    by_cases hkb : params.keep_build = true <;>
    simp [build_gcc_toolchain, hp, hm, hd, hks, hkb, hcl2, hcl, hw, cpuJobs,
      clone_mingw_skip_run, clone_mingw_fresh_run, build_binutils_run,
      install_mingw_headers_run, install_mingw_libs_run, build_gcc_run_darwin,
      build_gcc_run_other, build_libgcc_run, makedirsM, printM, rmtreeM,
      M_bind_run, M_pure_run,
      stageSeq, List.filterMap_append, List.filterMap_cons,
      stage_isFileCheck, stage_existsCheck, stage_shell, stage_download, stage_makedirs,
      stage_mkdir, stage_removeFile, stage_rmtree, stage_message, stage_run,
      soc_make_install, soc_make_install_gcc, soc_make_install_tlibgcc, soc_brew_gmp,
      soc_brew_libmpc, soc_brew_mpfr, soc_make_j, soc_git_clone, soc_binutils_conf,
      soc_gcc_conf, soc_gcc_conf_darwin, soc_headers_conf, soc_crt_conf, soc_make_allgcc,
      soc_make_libgcc]

/-- C4 witness: a concrete MinGW-targeting request on a fresh filesystem
runs the five stages in the claimed order. -/
theorem c4_witness :
    gcc_prefix_of ⟨"gcc", "x86_64", "w64-mingw32", "/r", false, true, "/s", false, false⟩ =
      some "x86_64-w64-mingw32" ∧
    stageSeq ((build_gcc_toolchain
        ⟨"Linux", fun _ => none, 1, fun _ => 0, fun _ => 0, fun _ => "", fun _ => ""⟩
        ⟨"gcc", "x86_64", "w64-mingw32", "/r", false, true, "/s", false, false⟩
        "/s/gcc_sources" "/s/binutils_sources" "Linux")
        ⟨⟨fun _ => false, fun _ => false⟩, ⟨none, false⟩⟩).trace =
      [.binutils, .mingwHeaders, .gccStage1, .mingwRuntime, .libgcc] := by
  refine ⟨by decide, ?_⟩
  have h := c4_stage_order
    ⟨"Linux", fun _ => none, 1, fun _ => 0, fun _ => 0, fun _ => "", fun _ => ""⟩
    ⟨"gcc", "x86_64", "w64-mingw32", "/r", false, true, "/s", false, false⟩
    "/s/gcc_sources" "/s/binutils_sources" "Linux"
    ⟨⟨fun _ => false, fun _ => false⟩, ⟨none, false⟩⟩ "x86_64-w64-mingw32"
    (by decide) (fun _ => rfl)
  rw [h]
  decide

/-! ## Claim C3: MinGW clone location and skip -/

/-- C3 counterexample: with source workspace `/s` and output root `/r`, a
MinGW-targeting build clones into `/r/mingw-w64` — the output root — and
never references `/s/mingw-w64`, refuting the claim that the clone lands
in the source workspace directory. -/
theorem c3_counterexample :
    Effect.run ["git", "clone", "https://github.com/mingw-w64/mingw-w64", "/r/mingw-w64"]
        none ∈
      ((build_gcc_toolchain
          ⟨"Linux", fun _ => none, 1, fun _ => 0, fun _ => 0, fun _ => "", fun _ => ""⟩
          ⟨"gcc", "x86_64", "w64-mingw32", "/r", false, true, "/s", false, false⟩
          "/s/gcc_sources" "/s/binutils_sources" "Linux")
          ⟨⟨fun _ => false, fun _ => false⟩, ⟨none, false⟩⟩).trace ∧
    Effect.run ["git", "clone", "https://github.com/mingw-w64/mingw-w64", "/s/mingw-w64"]
        none ∉
      ((build_gcc_toolchain
          ⟨"Linux", fun _ => none, 1, fun _ => 0, fun _ => 0, fun _ => "", fun _ => ""⟩
          ⟨"gcc", "x86_64", "w64-mingw32", "/r", false, true, "/s", false, false⟩
          "/s/gcc_sources" "/s/binutils_sources" "Linux")
          ⟨⟨fun _ => false, fun _ => false⟩, ⟨none, false⟩⟩).trace ∧
    Effect.existsCheck "/s/mingw-w64" ∉
      ((build_gcc_toolchain
          ⟨"Linux", fun _ => none, 1, fun _ => 0, fun _ => 0, fun _ => "", fun _ => ""⟩
          ⟨"gcc", "x86_64", "w64-mingw32", "/r", false, true, "/s", false, false⟩
          "/s/gcc_sources" "/s/binutils_sources" "Linux")
          ⟨⟨fun _ => false, fun _ => false⟩, ⟨none, false⟩⟩).trace := by
  decide

/-- C3 amended: for every MinGW-targeting build request (under a world
where external invocations succeed), the MinGW runtime source tree is
cloned into the output root directory, at `<root>/mingw-w64/`, when that
directory does not already exist; when it exists, no `git clone` of any
target is invoked at all. -/
theorem c3_mingw_clone_root (w : World) (params : ToolchainParams) (gs bs plat : String)
    (s : S) (pfxStr : String)
    (hp : gcc_prefix_of params = some pfxStr)
    (hm : strContains params.target_platform "mingw" = true)
    (hw : ∀ c, w.exitCode c = 0) :
    (s.fs.pexists (joinPath params.root_dir "mingw-w64") = false →
      Effect.run ["git", "clone", "https://github.com/mingw-w64/mingw-w64",
          joinPath params.root_dir "mingw-w64"] none ∈
        ((build_gcc_toolchain w params gs bs plat) s).trace) ∧
    (s.fs.pexists (joinPath params.root_dir "mingw-w64") = true →
      ∀ d2 cwd, Effect.run ["git", "clone", "https://github.com/mingw-w64/mingw-w64", d2]
          cwd ∉
        ((build_gcc_toolchain w params gs bs plat) s).trace) := by
  have hne : joinPath params.root_dir "mingw-w64" ≠ joinPath params.root_dir pfxStr :=
    joinPath_ne_of_ne _ (pfx_ne_mingw_clone_dir params pfxStr hp).symm
  have hcl2 : (FS.addDir s.fs (joinPath params.root_dir pfxStr)).pexists
      (joinPath params.root_dir "mingw-w64") =
      s.fs.pexists (joinPath params.root_dir "mingw-w64") := by
    simp [FS.pexists, FS.addDir, hne]
  have hg1 : ("git" : String) ≠ joinPath bs "configure" :=
    const_ne_joinPath (by decide) (by decide) bs
  have hg2 : ("git" : String) ≠ joinPath gs "configure" :=
    const_ne_joinPath (by decide) (by decide) gs
  have hg3 : ("git" : String) ≠
      joinPath (joinPath (joinPath params.root_dir "mingw-w64") "mingw-w64-headers")
        "configure" :=
    const_ne_joinPath (by decide) (by decide) _
  have hg4 : ("git" : String) ≠
      joinPath (joinPath (joinPath params.root_dir "mingw-w64") "mingw-w64-crt")
        "configure" :=
    const_ne_joinPath (by decide) (by decide) _
  constructor
  · intro hcl
    by_cases hd : (plat == "Darwin") = true <;>
      by_cases hks : params.keep_sources = true <;>
      by_cases hkb : params.keep_build = true <;>
      simp [build_gcc_toolchain, hp, hm, hd, hks, hkb, hcl2, hcl, hw, cpuJobs,
        clone_mingw_fresh_run, build_binutils_run, install_mingw_headers_run,
        install_mingw_libs_run, build_gcc_run_darwin, build_gcc_run_other,
        build_libgcc_run, makedirsM, printM, rmtreeM, M_bind_run, M_pure_run]
  · intro hcl d2 cwd
    by_cases hd : (plat == "Darwin") = true <;>
      by_cases hks : params.keep_sources = true <;>
      by_cases hkb : params.keep_build = true <;>
      simp [build_gcc_toolchain, hp, hm, hd, hks, hkb, hcl2, hcl, hw, cpuJobs,
        clone_mingw_skip_run, build_binutils_run, install_mingw_headers_run,
        install_mingw_libs_run, build_gcc_run_darwin, build_gcc_run_other,
        build_libgcc_run, makedirsM, printM, rmtreeM, M_bind_run, M_pure_run,
        hg1.symm, hg2.symm, hg3.symm, hg4.symm]

/-- C3 witness: the amended theorem at the concrete MinGW request of the
counterexample: the clone targets `<root>/mingw-w64`. -/
theorem c3_witness :
    strContains "w64-mingw32" "mingw" = true ∧
    Effect.run ["git", "clone", "https://github.com/mingw-w64/mingw-w64", "/r/mingw-w64"]
        none ∈
      ((build_gcc_toolchain
          ⟨"Linux", fun _ => none, 1, fun _ => 0, fun _ => 0, fun _ => "", fun _ => ""⟩
          ⟨"gcc", "x86_64", "w64-mingw32", "/r", false, true, "/s", false, false⟩
          "/s/gcc_sources" "/s/binutils_sources" "Linux")
          ⟨⟨fun _ => false, fun _ => false⟩, ⟨none, false⟩⟩).trace := by
  refine ⟨by decide, ?_⟩
  have h := (c3_mingw_clone_root
    ⟨"Linux", fun _ => none, 1, fun _ => 0, fun _ => 0, fun _ => "", fun _ => ""⟩
    ⟨"gcc", "x86_64", "w64-mingw32", "/r", false, true, "/s", false, false⟩
    "/s/gcc_sources" "/s/binutils_sources" "Linux"
    ⟨⟨fun _ => false, fun _ => false⟩, ⟨none, false⟩⟩ "x86_64-w64-mingw32"
    (by decide) (by decide) (fun _ => rfl)).1 (by decide)
  exact h

/-! ## Helpers for the cleanup claim -/

theorem bind_ok_run {α β : Type} {x : M α} {f : α → M β} {s : S} {a : α}
    (hx : (x s).result = .ok a) :
    (x >>= f) s = ⟨(x s).trace ++ (f a (x s).state).trace, (f a (x s).state).state,
      (f a (x s).state).result⟩ := by
  rw [M_bind_run]
  simp [hx]

theorem bind_err_run {α β : Type} {x : M α} {f : α → M β} {s : S} {e : String}
    (hx : (x s).result = .error e) :
    (x >>= f) s = ⟨(x s).trace, (x s).state, .error e⟩ := by
  rw [M_bind_run]
  simp [hx]

theorem pexists_addDir (fs : FS) (p q : String) :
    (fs.addDir p).pexists q = (if q = p then true else fs.pexists q) := by
  by_cases h : q = p <;> simp [FS.pexists, FS.addDir, h]

theorem pexists_addFile (fs : FS) (p q : String) :
    (fs.addFile p).pexists q = (if q = p then true else fs.pexists q) := by
  by_cases h : q = p <;> simp [FS.pexists, FS.addFile, h]

theorem pexists_rmtreeP (fs : FS) (p q : String) :
    (fs.rmtreeP p).pexists q = (if q = p then false else fs.pexists q) := by
  by_cases h : q = p <;> simp [FS.pexists, FS.rmtreeP, h]

theorem pexists_rmFile_ne (fs : FS) {p q : String} (h : q ≠ p) :
    (fs.rmFile p).pexists q = fs.pexists q := by
  simp [FS.pexists, FS.rmFile, h]

theorem pmDetect_run (w : World) (pm : PMKind) (s : S) :
    (pmDetect w pm) s = ⟨[.shell ("command -v " ++ pmName pm)], s,
      .ok (w.shellCode ("command -v " ++ pmName pm) == 0)⟩ := by
  cases pm <;> simp [pmDetect, pmName, Apt.detect, Pacman.detect, Brew.detect,
    command_exists, shellRun, M_bind_run, M_pure_run]

theorem detectLoop_fs (w : World) (l : List PMKind) :
    ∀ s : S, ((detectLoop w l) s).state.fs = s.fs ∧
      ∃ r, ((detectLoop w l) s).result = .ok r := by
  induction l with
  | nil => intro s; exact ⟨rfl, ⟨none, rfl⟩⟩
  | cons pm rest ih =>
    intro s
    by_cases hd : w.shellCode ("command -v " ++ pmName pm) == 0
    · refine ⟨?_, ⟨some pm, ?_⟩⟩ <;>
        simp [detectLoop, pmDetect_run, printM, setCachedM, M_bind_run, M_pure_run, hd]
    · have h1 := (ih s).1
      have h2 := (ih s).2
      constructor
      · simp [detectLoop, pmDetect_run, printM, setCachedM, M_bind_run, M_pure_run, hd, h1]
      · obtain ⟨r, hr⟩ := h2
        refine ⟨r, ?_⟩
        simp [detectLoop, pmDetect_run, printM, setCachedM, M_bind_run, M_pure_run, hd, hr]

theorem get_pm_fs (w : World) (s : S) :
    ((get_package_manager w) s).state.fs = s.fs := by
  rcases hc : s.pm.cached with _ | pm
  · by_cases hd : (w.system == "Darwin") = true
    · simp [get_package_manager, getPMStateM, setCachedM, M_bind_run, M_pure_run, hc, hd]
    · obtain ⟨h1, r, h2⟩ := detectLoop_fs w PACKAGE_MANAGERS s
      rcases r with _ | pm
      · simp [get_package_manager, getPMStateM, setCachedM, throwE,
          M_bind_run, M_pure_run, hc, hd, h1, h2]
      · simp [get_package_manager, getPMStateM, setCachedM, throwE,
          M_bind_run, M_pure_run, hc, hd, h1, h2]
  · simp [get_package_manager, getPMStateM, M_bind_run, M_pure_run, hc]

theorem pm_isdep_state (w : World) (pm : PMKind) (d : String) (s : S) :
    ((pm_is_dep_installed w pm d) s).state = s := by
  cases pm
  · by_cases hc : w.exitCode ["apt", "--installed", "list", d, "-qq"] = 0 <;>
      simp [pm_is_dep_installed, Apt.is_dep_installed, checkOutputM,
        M_bind_run, M_pure_run, hc]
  · simp [pm_is_dep_installed, Pacman.is_dep_installed, runUnchecked,
      M_bind_run, M_pure_run]
  · simp [pm_is_dep_installed, Brew.is_dep_installed, runUnchecked,
      M_bind_run, M_pure_run]

theorem pm_install_fs (w : World) (pm : PMKind) (d : String) (s : S) :
    ((pm_install_dep w pm d) s).state.fs = s.fs := by
  cases pm
  · by_cases hf : s.pm.aptDidUpdate <;>
      by_cases hc : w.exitCode ["sudo", "apt-get", "install", "-y", d] = 0 <;>
      simp [pm_install_dep, Apt.install_dep, getPMStateM, runUnchecked, setAptDidUpdateM,
        runChecked, M_bind_run, M_pure_run, hf, hc]
  · by_cases hc : w.exitCode ["sudo", "pacman", "-Sy", d, "--noconfirm"] = 0 <;>
      simp [pm_install_dep, Pacman.install_dep, runChecked, hc]
  · by_cases hc : w.exitCode ["brew", "install", d] = 0 <;>
      simp [pm_install_dep, Brew.install_dep, runChecked, hc]

theorem installLoop_fs (w : World) (pm : PMKind) (ds : List String) :
    ∀ s : S, ((installLoop w pm ds) s).state.fs = s.fs := by
  induction ds with
  | nil => intro s; rfl
  | cons d rest ih =>
    intro s
    rcases hres : ((pm_is_dep_installed w pm d) s).result with e | b
    · simp only [installLoop]
      rw [bind_err_run hres]
      simp [pm_isdep_state]
    · simp only [installLoop]
      rw [bind_ok_run hres, pm_isdep_state]
      cases b
      · have hpr : ((printM ("Installing " ++ d ++ "...")) s).result = .ok () := rfl
        simp only [Bool.false_eq_true, if_false]
        rw [bind_ok_run hpr]
        simp only [printM]
        rcases hr3 : ((pm_install_dep w pm d) s).result with e3 | u
        · rw [bind_err_run hr3]
          simp [pm_install_fs]
        · rw [bind_ok_run hr3]
          simp [pm_install_fs, ih _]
      · have hpr : ((printM (d ++ " is already installed")) s).result = .ok () := rfl
        simp only [if_true]
        rw [bind_ok_run hpr]
        simp [printM, ih _]

theorem install_dependencies_fs (w : World) (deps : List (String × List String)) (s : S) :
    ((install_dependencies w deps) s).state.fs = s.fs := by
  rcases hres : ((get_package_manager w) s).result with e | pm
  · simp only [install_dependencies]
    rw [bind_err_run hres]
    simp [get_pm_fs]
  · simp only [install_dependencies]
    rw [bind_ok_run hres]
    rcases hl : deps.lookup (pmName pm) with _ | pmdeps
    · simp [hl, throwE, get_pm_fs]
    · simp [hl, installLoop_fs, get_pm_fs]

theorem ensure_dependencies_fs (w : World) (params : ToolchainParams) (s : S) :
    ((ensure_dependencies w params) s).state.fs = s.fs := by
  by_cases hs : params.skip_dependencies = true
  · simp [ensure_dependencies, hs, M_pure_run]
  · rcases hl : get_dependencies_for_toolchain params.type with _ | deps
    · simp [ensure_dependencies, hs, hl, throwE]
    · simp [ensure_dependencies, hs, hl, install_dependencies_fs]

theorem dae_exists_run (w : World) (url f d plat : String) (s : S)
    (h : s.fs.pexists d = true) :
    (download_and_extract w url f d plat) s =
      ⟨[.existsCheck d, .message (d ++ " already exists")], s, .ok false⟩ := by
  simp [download_and_extract, pexistsM, printM, M_bind_run, M_pure_run, h]

theorem dae_fresh_file_run (w : World) (url f d plat : String) (s : S)
    (h : s.fs.pexists d = false) (h2 : s.fs.pexists f = true) (hw : ∀ c, w.exitCode c = 0) :
    (download_and_extract w url f d plat) s =
      ⟨[.existsCheck d, .existsCheck f, .message (f ++ " already exists, not downloading"),
        .mkdir d, .message ("Unpacking " ++ f ++ "..."), .run (tarCmd f d plat) none,
        .message ""],
       { s with fs := s.fs.addDir d }, .ok true⟩ := by
  simp [download_and_extract, pexistsM, printM, downloadM, mkdirM, runChecked, tarCmd,
    M_bind_run, M_pure_run, h, h2, hw]

theorem dae_fresh_nofile_run (w : World) (url f d plat : String) (s : S)
    (h : s.fs.pexists d = false) (h2 : s.fs.pexists f = false) (hw : ∀ c, w.exitCode c = 0) :
    (download_and_extract w url f d plat) s =
      ⟨[.existsCheck d, .existsCheck f, .message ("Downloading " ++ url ++ "..."),
        .download url f, .mkdir d, .message ("Unpacking " ++ f ++ "..."),
        .run (tarCmd f d plat) none, .message ""],
       { s with fs := (s.fs.addFile f).addDir d }, .ok true⟩ := by
  simp [download_and_extract, pexistsM, printM, downloadM, mkdirM, runChecked, tarCmd,
    M_bind_run, M_pure_run, h, h2, hw]

theorem ite_patch_run (c : Prop) [inst : Decidable c] (w : World) (gd : String) (s : S)
    (hw : ∀ x, w.exitCode x = 0) :
    ((if c then apply_patch w gd else pure ()) : M Unit) s =
      ⟨if c then [Effect.run ["patch", "-p0"] (some gd)] else [], s, .ok ()⟩ := by
  split <;> simp [apply_patch, runChecked, hw, M_pure_run]

theorem dgs_facts (w : World) (plat wd gd bd : String) (s : S)
    (hw : ∀ c, w.exitCode c = 0)
    (h1 : gd ≠ joinPath wd "gcc.tar.gz") (h2 : gd ≠ joinPath wd "binutils.tar.gz")
    (h3 : bd ≠ joinPath wd "gcc.tar.gz") (h4 : bd ≠ joinPath wd "binutils.tar.gz")
    (h5 : bd ≠ gd) :
    ((download_gcc_toolchain_sources w plat wd gd bd) s).result = .ok () ∧
    ((download_gcc_toolchain_sources w plat wd gd bd) s).state.fs.pexists gd = true ∧
    ((download_gcc_toolchain_sources w plat wd gd bd) s).state.fs.pexists bd = true ∧
    (∀ q, q ≠ gd → q ≠ bd → q ≠ joinPath wd "gcc.tar.gz" →
      q ≠ joinPath wd "binutils.tar.gz" →
      ((download_gcc_toolchain_sources w plat wd gd bd) s).state.fs.pexists q =
        s.fs.pexists q) := by
  have hgt : joinPath wd "gcc.tar.gz" ≠ joinPath wd "binutils.tar.gz" :=
    joinPath_ne_of_ne _ (by decide)
  refine ⟨?_, ?_, ?_, fun q hq1 hq2 hq3 hq4 => ?_⟩ <;>
    by_cases hg : s.fs.pexists gd = true <;>
    by_cases hgf : s.fs.pexists (joinPath wd "gcc.tar.gz") = true <;>
    by_cases hb : s.fs.pexists bd = true <;>
    by_cases hbf : s.fs.pexists (joinPath wd "binutils.tar.gz") = true <;>
    by_cases hpd : plat = "Darwin" <;>
    simp [download_gcc_toolchain_sources, dae_exists_run, dae_fresh_file_run,
      dae_fresh_nofile_run, removeFileM, apply_patch, runChecked,
      M_bind_run, M_pure_run, hw,
      pexists_addDir, pexists_addFile, pexists_rmtreeP, pexists_rmFile_ne,
      h1.symm, h2.symm, h3.symm, h4.symm, h5.symm, hgt.symm, hgt, *]

theorem bgt_state (w : World) (params : ToolchainParams) (gs bs plat : String) (s : S)
    (pfxStr : String) (hp : gcc_prefix_of params = some pfxStr)
    (hw : ∀ c, w.exitCode c = 0) :
    ((build_gcc_toolchain w params gs bs plat) s).result = .ok () ∧
    ((build_gcc_toolchain w params gs bs plat) s).state =
      { s with fs := buildFS params pfxStr s.fs } := by
  have hne : joinPath params.root_dir "mingw-w64" ≠ joinPath params.root_dir pfxStr :=
    joinPath_ne_of_ne _ (pfx_ne_mingw_clone_dir params pfxStr hp).symm
  have hcl2 : (FS.addDir s.fs (joinPath params.root_dir pfxStr)).pexists
      (joinPath params.root_dir "mingw-w64") =
      s.fs.pexists (joinPath params.root_dir "mingw-w64") := by
    rw [pexists_addDir]
    simp [hne]
  constructor <;>
    by_cases hm : strContains params.target_platform "mingw" = true <;>
    by_cases hcl : s.fs.pexists (joinPath params.root_dir "mingw-w64") = true <;>
    by_cases hd : (plat == "Darwin") = true <;>
    by_cases hks : params.keep_sources = true <;>
    by_cases hkb : params.keep_build = true <;>
    simp [build_gcc_toolchain, buildFS, hp, makedirsM, printM, rmtreeM,
      M_bind_run, M_pure_run, cpuJobs, clone_mingw_skip_run, clone_mingw_fresh_run,
      build_binutils_run, install_mingw_headers_run, install_mingw_libs_run,
      build_gcc_run_darwin, build_gcc_run_other, build_libgcc_run, hcl2, *]

theorem buildFS_facts (params : ToolchainParams) (pfxStr : String) (fs0 : FS)
    (hp : gcc_prefix_of params = some pfxStr) :
    (params.keep_build = true →
      (buildFS params pfxStr fs0).pexists
        (joinPath params.root_dir ("binutils-" ++ params.target_arch ++ "-build")) = true ∧
      (buildFS params pfxStr fs0).pexists
        (joinPath params.root_dir ("gcc-" ++ params.target_arch ++ "-build")) = true) ∧
    (params.keep_build = false →
      (buildFS params pfxStr fs0).pexists
        (joinPath params.root_dir ("binutils-" ++ params.target_arch ++ "-build")) = false ∧
      (buildFS params pfxStr fs0).pexists
        (joinPath params.root_dir ("gcc-" ++ params.target_arch ++ "-build")) = false) ∧
    (strContains params.target_platform "mingw" = true →
      (params.keep_sources = true →
        (buildFS params pfxStr fs0).pexists (joinPath params.root_dir "mingw-w64") = true) ∧
      (params.keep_sources = false →
        (buildFS params pfxStr fs0).pexists (joinPath params.root_dir "mingw-w64") = false)) ∧
    (∀ q, q ≠ joinPath params.root_dir "mingw_headers" →
      q ≠ joinPath params.root_dir "mingw_crt" →
      q ≠ joinPath params.root_dir "mingw-w64" →
      q ≠ joinPath params.root_dir ("binutils-" ++ params.target_arch ++ "-build") →
      q ≠ joinPath params.root_dir ("gcc-" ++ params.target_arch ++ "-build") →
      fs0.pexists q = true → (buildFS params pfxStr fs0).pexists q = true) := by
  have hne : joinPath params.root_dir "mingw-w64" ≠ joinPath params.root_dir pfxStr :=
    joinPath_ne_of_ne _ (pfx_ne_mingw_clone_dir params pfxStr hp).symm
  have hbg : joinPath params.root_dir ("binutils-" ++ params.target_arch ++ "-build") ≠
      joinPath params.root_dir ("gcc-" ++ params.target_arch ++ "-build") :=
    joinPath_ne_of_ne _ (ne_of_distinct_prefixes
      (prefix_in_append_right (data_prefix_append "binutils-" params.target_arch) "-build")
      (prefix_in_append_right (data_prefix_append "gcc-" params.target_arch) "-build")
      (by decide) (by decide))
  have hmB : joinPath params.root_dir "mingw-w64" ≠
      joinPath params.root_dir ("binutils-" ++ params.target_arch ++ "-build") :=
    joinPath_ne_of_ne _ (ne_of_distinct_suffixes List.suffix_rfl
      (data_suffix_append ("binutils-" ++ params.target_arch) "-build")
      (by decide) (by decide))
  have hmG : joinPath params.root_dir "mingw-w64" ≠
      joinPath params.root_dir ("gcc-" ++ params.target_arch ++ "-build") :=
    joinPath_ne_of_ne _ (ne_of_distinct_suffixes List.suffix_rfl
      (data_suffix_append ("gcc-" ++ params.target_arch) "-build")
      (by decide) (by decide))
  have hmH : joinPath params.root_dir "mingw-w64" ≠
      joinPath params.root_dir "mingw_headers" := joinPath_ne_of_ne _ (by decide)
  have hmC : joinPath params.root_dir "mingw-w64" ≠
      joinPath params.root_dir "mingw_crt" := joinPath_ne_of_ne _ (by decide)
  have hbH : joinPath params.root_dir ("binutils-" ++ params.target_arch ++ "-build") ≠
      joinPath params.root_dir "mingw_headers" :=
    joinPath_ne_of_ne _ (ne_of_distinct_suffixes
      (data_suffix_append ("binutils-" ++ params.target_arch) "-build") List.suffix_rfl
      (by decide) (by decide))
  have hbC : joinPath params.root_dir ("binutils-" ++ params.target_arch ++ "-build") ≠
      joinPath params.root_dir "mingw_crt" :=
    joinPath_ne_of_ne _ (ne_of_distinct_suffixes
      (data_suffix_append ("binutils-" ++ params.target_arch) "-build") List.suffix_rfl
      (by decide) (by decide))
  have hgH : joinPath params.root_dir ("gcc-" ++ params.target_arch ++ "-build") ≠
      joinPath params.root_dir "mingw_headers" :=
    joinPath_ne_of_ne _ (ne_of_distinct_suffixes
      (data_suffix_append ("gcc-" ++ params.target_arch) "-build") List.suffix_rfl
      (by decide) (by decide))
  have hgC : joinPath params.root_dir ("gcc-" ++ params.target_arch ++ "-build") ≠
      joinPath params.root_dir "mingw_crt" :=
    joinPath_ne_of_ne _ (ne_of_distinct_suffixes
      (data_suffix_append ("gcc-" ++ params.target_arch) "-build") List.suffix_rfl
      (by decide) (by decide))
  refine ⟨fun hkb2 => ?_, fun hkb2 => ?_,
    fun hm2 => ⟨fun hks2 => ?_, fun hks2 => ?_⟩,
    fun q hq1 hq2 hq3 hq4 hq5 hq6 => ?_⟩ <;>
    by_cases hm : strContains params.target_platform "mingw" = true <;>
    by_cases hcl : fs0.pexists (joinPath params.root_dir "mingw-w64") = true <;>
    by_cases hks : params.keep_sources = true <;>
    by_cases hkb : params.keep_build = true <;>
    simp [buildFS, pexists_addDir, pexists_rmtreeP,
      hne, hne.symm, hbg, hbg.symm, hmB, hmB.symm, hmG, hmG.symm, hmH, hmH.symm,
      hmC, hmC.symm, hbH, hbH.symm, hbC, hbC.symm, hgH, hgH.symm, hgC, hgC.symm, *]

/-! ## Claim C5: cleanup follows the flags -/

/-- C5: after a successful build run of the GCC pipeline (completion marker
initially absent, external invocations succeed, overall result is
success), cleanup follows the flags exactly: keep-sources keeps both
source trees and the MinGW clone (when applicable); keep-build keeps both
per-stage build directories; with both flags false, the source trees, the
build directories and the MinGW clone are all absent. -/
theorem c5_cleanup_flags (w : World) (params : ToolchainParams) (s : S) (pfxStr : String)
    (hp : gcc_prefix_of params = some pfxStr)
    (hw : ∀ c, w.exitCode c = 0)
    (hnb : s.fs.files (joinPath (joinPath params.root_dir "bin") (pfxStr ++ "-") ++ "gcc") =
      false)
    (hok : ((ensure_gcc_toolchain w params) s).result = .ok ()) :
    (params.keep_sources = true →
      ((ensure_gcc_toolchain w params) s).state.fs.pexists
        (joinPath params.sources_dir "gcc_sources") = true ∧
      ((ensure_gcc_toolchain w params) s).state.fs.pexists
        (joinPath params.sources_dir "binutils_sources") = true ∧
      (strContains params.target_platform "mingw" = true →
        ((ensure_gcc_toolchain w params) s).state.fs.pexists
          (joinPath params.root_dir "mingw-w64") = true)) ∧
    (params.keep_build = true →
      ((ensure_gcc_toolchain w params) s).state.fs.pexists
        (joinPath params.root_dir ("binutils-" ++ params.target_arch ++ "-build")) = true ∧
      ((ensure_gcc_toolchain w params) s).state.fs.pexists
        (joinPath params.root_dir ("gcc-" ++ params.target_arch ++ "-build")) = true) ∧
    (params.keep_sources = false → params.keep_build = false →
      ((ensure_gcc_toolchain w params) s).state.fs.pexists
        (joinPath params.sources_dir "gcc_sources") = false ∧
      ((ensure_gcc_toolchain w params) s).state.fs.pexists
        (joinPath params.sources_dir "binutils_sources") = false ∧
      ((ensure_gcc_toolchain w params) s).state.fs.pexists
        (joinPath params.root_dir ("binutils-" ++ params.target_arch ++ "-build")) = false ∧
      ((ensure_gcc_toolchain w params) s).state.fs.pexists
        (joinPath params.root_dir ("gcc-" ++ params.target_arch ++ "-build")) = false ∧
      (strContains params.target_platform "mingw" = true →
        ((ensure_gcc_toolchain w params) s).state.fs.pexists
          (joinPath params.root_dir "mingw-w64") = false)) := by
  have hsg1 : joinPath params.sources_dir "gcc_sources" ≠
      joinPath params.sources_dir "gcc.tar.gz" := joinPath_ne_of_ne _ (by decide)
  have hsg2 : joinPath params.sources_dir "gcc_sources" ≠
      joinPath params.sources_dir "binutils.tar.gz" := joinPath_ne_of_ne _ (by decide)
  have hsb1 : joinPath params.sources_dir "binutils_sources" ≠
      joinPath params.sources_dir "gcc.tar.gz" := joinPath_ne_of_ne _ (by decide)
  have hsb2 : joinPath params.sources_dir "binutils_sources" ≠
      joinPath params.sources_dir "binutils.tar.gz" := joinPath_ne_of_ne _ (by decide)
  have hsbg : joinPath params.sources_dir "binutils_sources" ≠
      joinPath params.sources_dir "gcc_sources" := joinPath_ne_of_ne _ (by decide)
  have hgd_mh : joinPath params.sources_dir "gcc_sources" ≠
      joinPath params.root_dir "mingw_headers" :=
    joinPath_ne_joinPath (by decide) (by decide) _ _
  have hgd_mc : joinPath params.sources_dir "gcc_sources" ≠
      joinPath params.root_dir "mingw_crt" :=
    joinPath_ne_joinPath (by decide) (by decide) _ _
  have hgd_md : joinPath params.sources_dir "gcc_sources" ≠
      joinPath params.root_dir "mingw-w64" :=
    joinPath_ne_joinPath (by decide) (by decide) _ _
  have hbd_mh : joinPath params.sources_dir "binutils_sources" ≠
      joinPath params.root_dir "mingw_headers" :=
    joinPath_ne_joinPath (by decide) (by decide) _ _
  have hbd_mc : joinPath params.sources_dir "binutils_sources" ≠
      joinPath params.root_dir "mingw_crt" :=
    joinPath_ne_joinPath (by decide) (by decide) _ _
  have hbd_md : joinPath params.sources_dir "binutils_sources" ≠
      joinPath params.root_dir "mingw-w64" :=
    joinPath_ne_joinPath (by decide) (by decide) _ _
  have hgd_bb : joinPath params.sources_dir "gcc_sources" ≠
      joinPath params.root_dir ("binutils-" ++ params.target_arch ++ "-build") :=
    ne_of_distinct_suffixes (data_suffix_append (params.sources_dir ++ "/") "gcc_sources")
      (suffix_in_append_left
        (data_suffix_append ("binutils-" ++ params.target_arch) "-build")
        (params.root_dir ++ "/")) (by decide) (by decide)
  have hgd_gb : joinPath params.sources_dir "gcc_sources" ≠
      joinPath params.root_dir ("gcc-" ++ params.target_arch ++ "-build") :=
    ne_of_distinct_suffixes (data_suffix_append (params.sources_dir ++ "/") "gcc_sources")
      (suffix_in_append_left
        (data_suffix_append ("gcc-" ++ params.target_arch) "-build")
        (params.root_dir ++ "/")) (by decide) (by decide)
  have hbd_bb : joinPath params.sources_dir "binutils_sources" ≠
      joinPath params.root_dir ("binutils-" ++ params.target_arch ++ "-build") :=
    ne_of_distinct_suffixes
      (data_suffix_append (params.sources_dir ++ "/") "binutils_sources")
      (suffix_in_append_left
        (data_suffix_append ("binutils-" ++ params.target_arch) "-build")
        (params.root_dir ++ "/")) (by decide) (by decide)
  have hbd_gb : joinPath params.sources_dir "binutils_sources" ≠
      joinPath params.root_dir ("gcc-" ++ params.target_arch ++ "-build") :=
    ne_of_distinct_suffixes
      (data_suffix_append (params.sources_dir ++ "/") "binutils_sources")
      (suffix_in_append_left
        (data_suffix_append ("gcc-" ++ params.target_arch) "-build")
        (params.root_dir ++ "/")) (by decide) (by decide)
  have hib : (is_gcc_toolchain_built params.root_dir pfxStr) s =
      ⟨[.isFileCheck (joinPath (joinPath params.root_dir "bin") (pfxStr ++ "-") ++ "gcc")],
       s, .ok false⟩ := by
    simp [is_gcc_toolchain_built, isFileM, M_bind_run, M_pure_run, hnb]
  simp only [ensure_gcc_toolchain, hp] at hok ⊢
  rw [bind_ok_run (show ((is_gcc_toolchain_built params.root_dir pfxStr) s).result =
    .ok false by rw [hib])] at hok ⊢
  simp only [hib, Bool.false_eq_true, if_false] at hok ⊢
  rw [bind_ok_run (show ((makedirsM params.root_dir) s).result = .ok () from rfl)] at hok ⊢
  simp only [makedirsM] at hok ⊢
  rcases hdep : ((ensure_dependencies w params)
      { s with fs := FS.addDir s.fs params.root_dir }).result with e | u
  · rw [bind_err_run hdep] at hok
    simp at hok
  · rw [bind_ok_run hdep] at hok ⊢
    have hdg := dgs_facts w w.system params.sources_dir
      (joinPath params.sources_dir "gcc_sources")
      (joinPath params.sources_dir "binutils_sources")
      (((ensure_dependencies w params) { s with fs := FS.addDir s.fs params.root_dir }).state)
      hw hsg1 hsg2 hsb1 hsb2 hsbg
    rw [bind_ok_run hdg.1] at hok ⊢
    obtain ⟨hdl_ok, hdl_gd, hdl_bd, hdl_frame⟩ := hdg
    generalize hsl : ((download_gcc_toolchain_sources w w.system params.sources_dir
      (joinPath params.sources_dir "gcc_sources")
      (joinPath params.sources_dir "binutils_sources"))
      (((ensure_dependencies w params)
        { s with fs := FS.addDir s.fs params.root_dir }).state)).state = sdl
      at hok hdl_gd hdl_bd ⊢
    rw [bind_ok_run (show ((makedirsM params.root_dir) sdl).result = .ok () from rfl)]
      at hok ⊢
    simp only [makedirsM] at hok ⊢
    have hbs := bgt_state w params (joinPath params.sources_dir "gcc_sources")
      (joinPath params.sources_dir "binutils_sources") w.system
      { sdl with fs := FS.addDir sdl.fs params.root_dir } pfxStr hp hw
    rw [bind_ok_run hbs.1] at hok ⊢
    rw [hbs.2] at hok ⊢
    have hbf := buildFS_facts params pfxStr (FS.addDir sdl.fs params.root_dir) hp
    obtain ⟨hbf_kb, hbf_nkb, hbf_m, hbf_frame⟩ := hbf
    have hpre_gd : (FS.addDir sdl.fs params.root_dir).pexists
        (joinPath params.sources_dir "gcc_sources") = true := by
      simp [pexists_addDir, hdl_gd]
    have hpre_bd : (FS.addDir sdl.fs params.root_dir).pexists
        (joinPath params.sources_dir "binutils_sources") = true := by
      simp [pexists_addDir, hdl_bd]
    have hsur_gd := hbf_frame _ hgd_mh hgd_mc hgd_md hgd_bb hgd_gb hpre_gd
    have hsur_bd := hbf_frame _ hbd_mh hbd_mc hbd_md hbd_bb hbd_gb hpre_bd
    refine ⟨fun hks2 => ⟨?_, ?_, fun hm2 => ?_⟩, fun hkb2 => ⟨?_, ?_⟩,
      fun hks2 hkb2 => ⟨?_, ?_, ?_, ?_, fun hm2 => ?_⟩⟩ <;>
      by_cases hks : params.keep_sources = true <;>
      by_cases hkb : params.keep_build = true <;>
      simp [printM, rmtreeM, M_bind_run, M_pure_run, pexists_addDir, pexists_rmtreeP,
        hsur_gd, hsur_bd, hbf_kb, hbf_nkb,
        hsbg, hsbg.symm, hgd_bb.symm, hgd_gb.symm, hbd_bb.symm, hbd_gb.symm,
        hgd_md.symm, hbd_md.symm, hgd_md, hbd_md, *]

/-- C5 witness: a concrete non-MinGW request with both keep flags false on
a fresh filesystem: the run succeeds and afterwards both source trees and
both build directories are absent. -/
theorem c5_witness :
    gcc_prefix_of ⟨"gcc", "x86_64", "elf", "/r", false, true, "/s", false, false⟩ =
      some "x86_64-elf" ∧
    ((ensure_gcc_toolchain
        ⟨"Linux", fun _ => none, 1, fun _ => 0, fun _ => 0, fun _ => "", fun _ => ""⟩
        ⟨"gcc", "x86_64", "elf", "/r", false, true, "/s", false, false⟩)
      ⟨⟨fun _ => false, fun _ => false⟩, ⟨none, false⟩⟩).result = .ok () ∧
    ((ensure_gcc_toolchain
        ⟨"Linux", fun _ => none, 1, fun _ => 0, fun _ => 0, fun _ => "", fun _ => ""⟩
        ⟨"gcc", "x86_64", "elf", "/r", false, true, "/s", false, false⟩)
      ⟨⟨fun _ => false, fun _ => false⟩, ⟨none, false⟩⟩).state.fs.pexists
      (joinPath "/s" "gcc_sources") = false ∧
    ((ensure_gcc_toolchain
        ⟨"Linux", fun _ => none, 1, fun _ => 0, fun _ => 0, fun _ => "", fun _ => ""⟩
        ⟨"gcc", "x86_64", "elf", "/r", false, true, "/s", false, false⟩)
      ⟨⟨fun _ => false, fun _ => false⟩, ⟨none, false⟩⟩).state.fs.pexists
      (joinPath "/r" ("binutils-" ++ "x86_64" ++ "-build")) = false := by
  have h := (c5_cleanup_flags
    ⟨"Linux", fun _ => none, 1, fun _ => 0, fun _ => 0, fun _ => "", fun _ => ""⟩
    ⟨"gcc", "x86_64", "elf", "/r", false, true, "/s", false, false⟩
    ⟨⟨fun _ => false, fun _ => false⟩, ⟨none, false⟩⟩ "x86_64-elf"
    (by decide) (fun _ => rfl) (by decide) rfl).2.2 rfl rfl
  exact ⟨by decide, rfl, h.1, h.2.2.1⟩
